import Mathlib

/-!
Shallow embedding of `clang/Parse/ParseStmt.cpp` (the statement and block
portions of the early clang parser) together with theorems about the
statement dispatcher, the compound-statement loop, and the individual
statement routines.

The token stream is a `List Token`; an empty list behaves like the `eof`
token (clang streams always end in `eof`, which is never consumed).  The
external collaborators (expression parser, declaration parser, the
declaration-specifier lookahead) are black boxes, modelled as arbitrary
functions that report how many tokens of the remaining stream they
consume, exactly as the specification describes them ("leaves the stream
positioned just past it").  Diagnostics emitted by this component are
recorded in emission order; `exprCalls` counts invocations of the
Expression Parser collaborator.
-/

namespace ClangStmt

/-- Token kinds used by `ParseStmt.cpp` (a fragment of clang's `tok::TokenKind`);
`other` stands for any kind the statement parser does not inspect. -/
inductive TokKind where
  | l_brace | r_brace | l_paren | r_paren
  | semi | colon | star | identifier
  | kw_if | kw_else | kw_switch | kw_case | kw_default
  | kw_while | kw_do | kw_for
  | kw_goto | kw_continue | kw_break | kw_return
  | eof | other
  deriving DecidableEq, Repr

/-- A token: a kind plus a source location (locations are abstracted to `Nat`). -/
structure Token where
  kind : TokKind
  loc : Nat
  deriving DecidableEq, Repr

/-- The diagnostic kinds emitted by `ParseStmt.cpp`.  The `String` arguments
are the extra format arguments passed to `Diag` in the source. -/
inductive DiagKind where
  | err_expected_statement_declaration
  | err_expected_semi_after (stmtKind : String)
  | err_expected_rbrace
  | err_expected_lparen_after (kw : String)
  | err_expected_while
  | err_matching
  | ext_c99_variable_decl_in_for_loop
  | err_expected_semi_for
  | err_expected_rparen
  | ext_gnu_indirect_goto
  deriving DecidableEq, Repr

/-- A recorded diagnostic: source location plus kind (with arguments). -/
structure Diag where
  loc : Nat
  kind : DiagKind
  deriving DecidableEq, Repr

/-- The two language-option flags `ParseStmt.cpp` consults via `getLang()`. -/
structure LangOptions where
  C99 : Bool
  NoExtensions : Bool
  deriving DecidableEq, Repr

/-- Parser state: the remaining token stream, the diagnostics emitted so far
(in order), and the number of Expression Parser invocations so far. -/
structure PState where
  toks : List Token
  diags : List Diag
  exprCalls : Nat
  deriving DecidableEq, Repr

/-- The external collaborators, as black boxes.  Each parsing collaborator is
an arbitrary function giving the number of tokens it consumes from the
remaining stream; the declaration-specifier lookahead is an arbitrary
predicate on the remaining stream. -/
structure Collab where
  ParseExpressionLen : List Token → Nat
  ParseParenExpressionLen : List Token → Nat
  isDeclarationSpecifier : List Token → Bool
  ParseDeclarationLen : List Token → Nat

/-- Kind of the current token (`Tok.getKind()`); an exhausted stream reads as `eof`. -/
def curKind : PState → TokKind
  | ⟨[], _, _⟩ => .eof
  | ⟨t :: _, _, _⟩ => t.kind

/-- Location of the current token (`Tok.getLocation()`). -/
def curLoc : PState → Nat
  | ⟨[], _, _⟩ => 0
  | ⟨t :: _, _, _⟩ => t.loc

/-- `ConsumeToken` / `ConsumeBrace` / `ConsumeParen`: advance past the current token. -/
def consumeToken (s : PState) : PState := { s with toks := s.toks.tail }

/-- Record a diagnostic at an explicit location (`Diag(Loc, kind)`). -/
def addDiag (s : PState) (loc : Nat) (k : DiagKind) : PState :=
  { s with diags := s.diags ++ [⟨loc, k⟩] }

/-- Record a diagnostic at the current token (`Diag(Tok, kind)`). -/
def diagTok (s : PState) (k : DiagKind) : PState := addDiag s (curLoc s) k

/-- Modelled from the spec: the token-skipping core of `SkipUntil`, which is
declared in the Parser interface but not part of this file.  Per the spec,
recovery "skips forward" to the requested resynchronisation token and on
return the stream is "positioned immediately after the nearest recovery
resynchronization point"; end-of-input stops the skip and is not consumed. -/
def skipToks (target : TokKind) : List Token → List Token
  | [] => []
  | t :: ts =>
    if t.kind = .eof then t :: ts
    else if t.kind = target then ts
    else skipToks target ts

/-- Modelled from the spec: `SkipUntil(target)` as used for error recovery. -/
def SkipUntil (target : TokKind) (s : PState) : PState :=
  { s with toks := skipToks target s.toks }

/-- Invoke the Expression Parser collaborator (`ParseExpression`). -/
def ParseExpression (c : Collab) (s : PState) : PState :=
  { s with toks := s.toks.drop (c.ParseExpressionLen s.toks),
           exprCalls := s.exprCalls + 1 }

/-- Invoke the Expression Parser collaborator on a parenthesized expression
(`ParseParenExpression` consumes the full `'(' expr ')'`). -/
def ParseParenExpression (c : Collab) (s : PState) : PState :=
  { s with toks := s.toks.drop (c.ParseParenExpressionLen s.toks),
           exprCalls := s.exprCalls + 1 }

/-- Invoke the Declaration Parser collaborator (`ParseDeclaration`), which
consumes the declaration including its terminating semicolon. -/
def ParseDeclaration (c : Collab) (s : PState) : PState :=
  { s with toks := s.toks.drop (c.ParseDeclarationLen s.toks) }

/-- The shared semicolon-enforcement tail of `ParseStatementOrDeclaration`
(the code after the `switch`, reached by the cases that set `SemiError`):
if the current token is a semicolon consume it, otherwise emit
`err_expected_semi_after` with the statement-kind label and skip to a
semicolon. -/
def finishSemi (s : PState) (SemiError : String) : PState :=
  if curKind s = .semi then consumeToken s
  else SkipUntil .semi (diagTok s (.err_expected_semi_after SemiError))

/-- `Parser::ParseGotoStatement`: eat the `goto`; consume an identifier label,
or (GNU extension, unless extensions are disabled) diagnose, eat `*` and
parse the target expression; otherwise consume nothing further. -/
def ParseGotoStatement (lang : LangOptions) (c : Collab) (s : PState) : PState :=
  match s.toks with
  | [] => s  -- assert(Tok is kw_goto): the dispatcher never calls this at eof
  | _ :: rest =>  -- eat the 'goto'
    let s1 : PState := { s with toks := rest }
    if curKind s1 = .identifier then
      consumeToken s1
    else if curKind s1 = .star ∧ lang.NoExtensions = false then
      -- GNU indirect goto extension.
      ParseExpression c (consumeToken (diagTok s1 .ext_gnu_indirect_goto))
    else
      s1

/-- `Parser::ParseReturnStatement`: eat the `return`; parse an expression
unless the current token is a semicolon. -/
def ParseReturnStatement (c : Collab) (s : PState) : PState :=
  match s.toks with
  | [] => s  -- assert(Tok is kw_return): the dispatcher never calls this at eof
  | _ :: rest =>  -- eat the 'return'
    let s1 : PState := { s with toks := rest }
    if curKind s1 ≠ .semi then ParseExpression c s1 else s1

/-- A trivial instantiation of the external collaborators (each consumes no
tokens, the lookahead predicate is constantly false), used to run the parser
on concrete token streams. -/
def trivialCollab : Collab :=
  ⟨fun _ => 0, fun _ => 0, fun _ => false, fun _ => 0⟩

/-- A default language mode: C99 enabled, extensions enabled. -/
def defaultLang : LangOptions := ⟨true, false⟩

/-! Length facts about the basic stream operations, used both for the
termination measure of the mutual recursion and for the progress lemmas. -/

theorem toks_addDiag (s : PState) (loc : Nat) (k : DiagKind) :
    (addDiag s loc k).toks = s.toks := rfl

theorem toks_diagTok (s : PState) (k : DiagKind) : (diagTok s k).toks = s.toks := rfl

theorem consumeToken_toks_length (s : PState) :
    (consumeToken s).toks.length = s.toks.length - 1 := by
  simp [consumeToken]

theorem consumeToken_toks_length_le (s : PState) :
    (consumeToken s).toks.length ≤ s.toks.length := by
  simp [consumeToken]

theorem skipToks_length_le (k : TokKind) (l : List Token) :
    (skipToks k l).length ≤ l.length := by
  induction l with
  | nil => simp [skipToks]
  | cons t ts ih =>
    simp only [skipToks]
    split
    · exact le_refl _
    · split
      · simp
      · exact le_trans ih (by simp)

theorem SkipUntil_toks_length_le (k : TokKind) (s : PState) :
    (SkipUntil k s).toks.length ≤ s.toks.length :=
  skipToks_length_le k s.toks

theorem ParseExpression_toks_length_le (c : Collab) (s : PState) :
    (ParseExpression c s).toks.length ≤ s.toks.length := by
  simp [ParseExpression]

theorem ParseParenExpression_toks_length_le (c : Collab) (s : PState) :
    (ParseParenExpression c s).toks.length ≤ s.toks.length := by
  simp [ParseParenExpression]

theorem ParseDeclaration_toks_length_le (c : Collab) (s : PState) :
    (ParseDeclaration c s).toks.length ≤ s.toks.length := by
  simp [ParseDeclaration]

theorem finishSemi_toks_length_le (s : PState) (e : String) :
    (finishSemi s e).toks.length ≤ s.toks.length := by
  unfold finishSemi
  split
  · exact consumeToken_toks_length_le s
  · have h := SkipUntil_toks_length_le TokKind.semi
      (diagTok s (DiagKind.err_expected_semi_after e))
    simpa [diagTok, addDiag] using h

/-- The optional-expression pattern of the `for` specifier clauses: parse an
expression unless the current token is already the clause terminator
("no second part" / "no third part" in the source). -/
def optExpr (c : Collab) (stop : TokKind) (s : PState) : PState :=
  if curKind s = stop then s else ParseExpression c s

theorem optExpr_toks_length_le (c : Collab) (stop : TokKind) (s : PState) :
    (optExpr c stop s).toks.length ≤ s.toks.length := by
  unfold optExpr
  split
  · exact le_refl _
  · exact ParseExpression_toks_length_le c s

/-- The require-and-consume-semicolon step of the `for` specifier clauses:
consume `';'`, or emit `err_expected_semi_for` plus the `err_matching` back
reference to the `for` location and skip to a semicolon. -/
def forSemiCheck (ForLoc : Nat) (s : PState) : PState :=
  if curKind s = .semi then consumeToken s
  else SkipUntil .semi (addDiag (diagTok s .err_expected_semi_for) ForLoc .err_matching)

theorem forSemiCheck_toks_length_le (ForLoc : Nat) (s : PState) :
    (forSemiCheck ForLoc s).toks.length ≤ s.toks.length := by
  unfold forSemiCheck
  split
  · exact consumeToken_toks_length_le _
  · have h := SkipUntil_toks_length_le TokKind.semi
      (addDiag (diagTok s .err_expected_semi_for) ForLoc .err_matching)
    simpa [diagTok, addDiag] using h

/-- The second clause of the for specifier together with its semicolon check. -/
def forClauseSemi (c : Collab) (ForLoc : Nat) (s : PState) : PState :=
  forSemiCheck ForLoc (optExpr c .semi s)

theorem forClauseSemi_toks_length_le (c : Collab) (ForLoc : Nat) (s : PState) :
    (forClauseSemi c ForLoc s).toks.length ≤ s.toks.length := by
  unfold forClauseSemi
  exact le_trans (forSemiCheck_toks_length_le _ _) (optExpr_toks_length_le _ _ _)

theorem length_pos_of_curKind_ne_eof (s : PState) (h : curKind s ≠ .eof) :
    0 < s.toks.length := by
  cases s with
  | mk toks diags ec =>
    cases toks with
    | nil => simp [curKind] at h
    | cons t ts => simp

/-! The mutually recursive statement routines.  The termination measure is
`8 * (remaining stream length) + rank`, where the rank orders the functions
called at equal stream length: every keyword consumption strictly shrinks
the stream, and the compound-statement loop advances because the dispatcher
always consumes at least one token when not at `eof` (the `progress`
theorems below show the guarding defensive branches are never taken). -/

mutual

/-- `Parser::ParseStatementOrDeclaration`: the statement dispatcher.  Routes
on the current token kind; the `do`/`goto`/`continue`/`break`/`return` cases
set `SemiError` and fall through to the shared semicolon-enforcement tail
(`finishSemi`); the other statement cases return directly; unrecognized
tokens get a diagnostic and skip-to-semicolon recovery. -/
def ParseStatementOrDeclaration (lang : LangOptions) (c : Collab)
    (OnlyStatement : Bool) (s : PState) : PState :=
  match curKind s with
  | .l_brace => ParseCompoundStatement lang c s    -- C99 6.8.2: compound-statement
  | .semi => consumeToken s                        -- C99 6.8.3: expression[opt] ';'
  | .kw_if => ParseIfStatement lang c s            -- C99 6.8.4.1: if-statement
  | .kw_switch => ParseSwitchStatement lang c s    -- C99 6.8.4.2: switch-statement
  | .kw_while => ParseWhileStatement lang c s      -- C99 6.8.5.1: while-statement
  | .kw_do =>                                      -- C99 6.8.5.2: do-statement
    finishSemi (ParseDoStatement lang c s) "do/while loop"
  | .kw_for => ParseForStatement lang c s          -- C99 6.8.5.3: for-statement
  | .kw_goto =>                                    -- C99 6.8.6.1: goto-statement
    finishSemi (ParseGotoStatement lang c s) "goto statement"
  | .kw_continue =>                                -- C99 6.8.6.2: continue-statement
    finishSemi (consumeToken s) "continue statement"
  | .kw_break =>                                   -- C99 6.8.6.3: break-statement
    finishSemi (consumeToken s) "break statement"
  | .kw_return =>                                  -- C99 6.8.6.4: return-statement
    finishSemi (ParseReturnStatement c s) "return statement"
  | _ => SkipUntil .semi (diagTok s .err_expected_statement_declaration)
termination_by 8 * s.toks.length + 2
decreasing_by all_goals omega

/-- Modelled from the spec: `Parser::ParseStatement` (declared in the Parser
interface, not part of this file) — "recursively parse one body statement
via the Statement Dispatcher". -/
def ParseStatement (lang : LangOptions) (c : Collab) (s : PState) : PState :=
  ParseStatementOrDeclaration lang c true s
termination_by 8 * s.toks.length + 3
decreasing_by omega

/-- `Parser::ParseCompoundStatement`: eat the `{`, then run the block-item loop. -/
def ParseCompoundStatement (lang : LangOptions) (c : Collab) (s : PState) : PState :=
  match h0 : s.toks with
  | [] => s  -- assert(Tok is l_brace): the dispatcher never calls this at eof
  | _ :: rest => compoundBody lang c { s with toks := rest }  -- ConsumeBrace: eat the '{'
termination_by 8 * s.toks.length + 1
decreasing_by
  simp [h0]
  omega

/-- The body loop of `ParseCompoundStatement`: invoke the dispatcher until
the current token is `}` or `eof`; then consume the `}`, or diagnose
`err_expected_rbrace` at `eof`. -/
def compoundBody (lang : LangOptions) (c : Collab) (s : PState) : PState :=
  if curKind s ≠ .r_brace ∧ curKind s ≠ .eof then
    let s1 := ParseStatementOrDeclaration lang c false s
    if h : s1.toks.length < s.toks.length then
      compoundBody lang c s1
    else
      s1  -- never reached: the dispatcher consumes at least one token here
  else if curKind s = .r_brace then
    consumeToken s  -- ConsumeBrace: eat the '}'
  else
    diagTok s .err_expected_rbrace
termination_by 8 * s.toks.length + 4
decreasing_by
  · omega
  · unfold_let s1 at h
    omega

/-- `Parser::ParseIfStatement`: eat the `if`; require `(`, parse the
parenthesized condition, the body statement, and an optional else branch. -/
def ParseIfStatement (lang : LangOptions) (c : Collab) (s : PState) : PState :=
  match h0 : s.toks with
  | [] => s  -- assert(Tok is kw_if): the dispatcher never calls this at eof
  | _ :: rest =>  -- eat the 'if'
    let s1 : PState := { s with toks := rest }
    if curKind s1 ≠ .l_paren then
      SkipUntil .semi (diagTok s1 (.err_expected_lparen_after "if"))
    else
      -- Parse the condition, then read the if body.
      let s2 := ParseStatement lang c (ParseParenExpression c s1)
      -- If it has an else, parse it.
      if curKind s2 = .kw_else then
        if h : (consumeToken s2).toks.length < s.toks.length then
          ParseStatement lang c (consumeToken s2)
        else
          consumeToken s2  -- never reached: parsing never lengthens the stream
      else
        s2
termination_by 8 * s.toks.length + 1
decreasing_by
  · have hle := ParseParenExpression_toks_length_le c { s with toks := rest }
    simp only [h0] at hle ⊢
    simp at hle ⊢
    omega
  · unfold_let s2 s1 at h
    omega

/-- `Parser::ParseSwitchStatement`: eat the `switch`; require `(`, parse the
parenthesized condition and the body statement. -/
def ParseSwitchStatement (lang : LangOptions) (c : Collab) (s : PState) : PState :=
  match h0 : s.toks with
  | [] => s  -- assert(Tok is kw_switch): the dispatcher never calls this at eof
  | _ :: rest =>  -- eat the 'switch'
    let s1 : PState := { s with toks := rest }
    if curKind s1 ≠ .l_paren then
      SkipUntil .semi (diagTok s1 (.err_expected_lparen_after "switch"))
    else
      ParseStatement lang c (ParseParenExpression c s1)
termination_by 8 * s.toks.length + 1
decreasing_by
  have hle := ParseParenExpression_toks_length_le c { s with toks := rest }
  simp only [h0] at hle ⊢
  simp at hle ⊢
  omega

/-- `Parser::ParseWhileStatement`: eat the `while`; require `(`, parse the
parenthesized condition and the body statement. -/
def ParseWhileStatement (lang : LangOptions) (c : Collab) (s : PState) : PState :=
  match h0 : s.toks with
  | [] => s  -- assert(Tok is kw_while): the dispatcher never calls this at eof
  | _ :: rest =>  -- eat the 'while'
    let s1 : PState := { s with toks := rest }
    if curKind s1 ≠ .l_paren then
      SkipUntil .semi (diagTok s1 (.err_expected_lparen_after "while"))
    else
      ParseStatement lang c (ParseParenExpression c s1)
termination_by 8 * s.toks.length + 1
decreasing_by
  have hle := ParseParenExpression_toks_length_le c { s with toks := rest }
  simp only [h0] at hle ⊢
  simp at hle ⊢
  omega

/-- `Parser::ParseDoStatement`: eat the `do` (remembering its location),
parse the body statement, require `while` (else diagnose with a back
reference and recover), require `(` (else diagnose and recover), then parse
the parenthesized condition.  The trailing semicolon is left to the caller. -/
def ParseDoStatement (lang : LangOptions) (c : Collab) (s : PState) : PState :=
  match h0 : s.toks with
  | [] => s  -- assert(Tok is kw_do): the dispatcher never calls this at eof
  | _ :: rest =>
    let DoLoc := curLoc s
    -- eat the 'do', then read the body statement.
    let s1 := ParseStatement lang c { s with toks := rest }
    if curKind s1 ≠ .kw_while then
      SkipUntil .semi (addDiag (diagTok s1 .err_expected_while) DoLoc .err_matching)
    else
      let s2 := consumeToken s1  -- eat the 'while'
      if curKind s2 ≠ .l_paren then
        SkipUntil .semi (diagTok s2 (.err_expected_lparen_after "do/while"))
      else
        ParseParenExpression c s2  -- parse the condition
termination_by 8 * s.toks.length + 1
decreasing_by
  simp [h0]
  omega

/-- `Parser::ParseForStatement`: eat the `for` (remembering its location),
require `(` (remembering its location), parse the three clauses of the for
specifier with their semicolon checks, require `)`, then parse the body. -/
def ParseForStatement (lang : LangOptions) (c : Collab) (s : PState) : PState :=
  match h0 : s.toks with
  | [] => s  -- assert(Tok is kw_for): the dispatcher never calls this at eof
  | _ :: rest =>
    let ForLoc := curLoc s
    let s1 : PState := { s with toks := rest }  -- eat the 'for'
    if curKind s1 ≠ .l_paren then
      SkipUntil .semi (diagTok s1 (.err_expected_lparen_after "for"))
    else
      let LParenLoc := curLoc s1
      let s2 := consumeToken s1  -- ConsumeParen
      -- Parse the first part of the for specifier.
      if curKind s2 = .semi then  -- for (;
        -- no first part, eat the ';'.
        forSecondPart lang c ForLoc LParenLoc (consumeToken s2)
      else if c.isDeclarationSpecifier s2.toks then  -- for (int X = 4;
        -- Use of C99-style for loops in C90 mode?
        let s3 := if lang.C99 = false then diagTok s2 .ext_c99_variable_decl_in_for_loop
                  else s2
        -- Parse declaration, which eats the ';'.
        forSecondPart lang c ForLoc LParenLoc (ParseDeclaration c s3)
      else
        let s3 := ParseExpression c s2
        if curKind s3 = .semi then
          forSecondPart lang c ForLoc LParenLoc (consumeToken s3)
        else
          forSecondPart lang c ForLoc LParenLoc
            (SkipUntil .semi (addDiag (diagTok s3 .err_expected_semi_for) ForLoc .err_matching))
termination_by 8 * s.toks.length + 1
decreasing_by
  · simp [h0, consumeToken]
    omega
  · have hle := ParseDeclaration_toks_length_le c
      (if lang.C99 = false
        then diagTok (consumeToken { s with toks := rest }) .ext_c99_variable_decl_in_for_loop
        else consumeToken { s with toks := rest })
    have htoks : (if lang.C99 = false
        then diagTok (consumeToken { s with toks := rest }) .ext_c99_variable_decl_in_for_loop
        else consumeToken { s with toks := rest }).toks.length
        = (consumeToken { s with toks := rest }).toks.length := by
      split <;> simp [toks_diagTok]
    simp only [h0] at hle htoks ⊢
    simp [consumeToken] at hle htoks ⊢
    omega
  · have hle := ParseExpression_toks_length_le c (consumeToken { s with toks := rest })
    simp only [h0] at hle ⊢
    simp [consumeToken] at hle ⊢
    omega
  · have hle := ParseExpression_toks_length_le c (consumeToken { s with toks := rest })
    have hsk := skipToks_length_le TokKind.semi
      (ParseExpression c (consumeToken { s with toks := rest })).toks
    simp only [h0] at hle hsk ⊢
    simp [consumeToken, SkipUntil, diagTok, addDiag] at hle hsk ⊢
    omega

/-- The second clause of the for specifier plus its semicolon check (the
straight-line continuation of `ParseForStatement` after the first clause),
followed by the third clause. -/
def forSecondPart (lang : LangOptions) (c : Collab) (ForLoc LParenLoc : Nat)
    (s : PState) : PState :=
  -- Parse the second part of the for specifier.
  forThirdPart lang c ForLoc LParenLoc (forClauseSemi c ForLoc s)
termination_by 8 * s.toks.length + 1
decreasing_by
  have h1 := forClauseSemi_toks_length_le c ForLoc s
  omega

/-- The third clause of the for specifier, the closing-parenthesis check,
and the body statement (the continuation of `forSecondPart`). -/
def forThirdPart (lang : LangOptions) (c : Collab) (ForLoc LParenLoc : Nat)
    (s : PState) : PState :=
  -- Parse the third part of the for specifier.
  if hr : curKind (optExpr c .r_paren s) = .r_paren then
    -- ConsumeParen, then read the body statement.
    ParseStatement lang c (consumeToken (optExpr c .r_paren s))
  else
    SkipUntil .r_paren
      (addDiag (diagTok (optExpr c .r_paren s) .err_expected_rparen) LParenLoc .err_matching)
termination_by 8 * s.toks.length
decreasing_by
  have h1 := optExpr_toks_length_le c TokKind.r_paren s
  have h2 : 0 < (optExpr c TokKind.r_paren s).toks.length := by
    apply length_pos_of_curKind_ne_eof
    rw [hr]
    intro hcontra
    exact absurd hcontra (by decide)
  simp [consumeToken]
  omega

end

/-! Per-branch unfolding lemmas for the mutually recursive routines. -/

theorem PSoD_l_brace (lang : LangOptions) (c : Collab) (b : Bool) (s : PState)
    (h : curKind s = .l_brace) :
    ParseStatementOrDeclaration lang c b s = ParseCompoundStatement lang c s := by
  simp only [ParseStatementOrDeclaration, h]

theorem PSoD_semi (lang : LangOptions) (c : Collab) (b : Bool) (s : PState)
    (h : curKind s = .semi) :
    ParseStatementOrDeclaration lang c b s = consumeToken s := by
  simp only [ParseStatementOrDeclaration, h]

theorem PSoD_kw_if (lang : LangOptions) (c : Collab) (b : Bool) (s : PState)
    (h : curKind s = .kw_if) :
    ParseStatementOrDeclaration lang c b s = ParseIfStatement lang c s := by
  simp only [ParseStatementOrDeclaration, h]

theorem PSoD_kw_switch (lang : LangOptions) (c : Collab) (b : Bool) (s : PState)
    (h : curKind s = .kw_switch) :
    ParseStatementOrDeclaration lang c b s = ParseSwitchStatement lang c s := by
  simp only [ParseStatementOrDeclaration, h]

theorem PSoD_kw_while (lang : LangOptions) (c : Collab) (b : Bool) (s : PState)
    (h : curKind s = .kw_while) :
    ParseStatementOrDeclaration lang c b s = ParseWhileStatement lang c s := by
  simp only [ParseStatementOrDeclaration, h]

theorem PSoD_kw_do (lang : LangOptions) (c : Collab) (b : Bool) (s : PState)
    (h : curKind s = .kw_do) :
    ParseStatementOrDeclaration lang c b s
      = finishSemi (ParseDoStatement lang c s) "do/while loop" := by
  simp only [ParseStatementOrDeclaration, h]

theorem PSoD_kw_for (lang : LangOptions) (c : Collab) (b : Bool) (s : PState)
    (h : curKind s = .kw_for) :
    ParseStatementOrDeclaration lang c b s = ParseForStatement lang c s := by
  simp only [ParseStatementOrDeclaration, h]

theorem PSoD_kw_goto (lang : LangOptions) (c : Collab) (b : Bool) (s : PState)
    (h : curKind s = .kw_goto) :
    ParseStatementOrDeclaration lang c b s
      = finishSemi (ParseGotoStatement lang c s) "goto statement" := by
  simp only [ParseStatementOrDeclaration, h]

theorem PSoD_kw_continue (lang : LangOptions) (c : Collab) (b : Bool) (s : PState)
    (h : curKind s = .kw_continue) :
    ParseStatementOrDeclaration lang c b s
      = finishSemi (consumeToken s) "continue statement" := by
  simp only [ParseStatementOrDeclaration, h]

theorem PSoD_kw_break (lang : LangOptions) (c : Collab) (b : Bool) (s : PState)
    (h : curKind s = .kw_break) :
    ParseStatementOrDeclaration lang c b s
      = finishSemi (consumeToken s) "break statement" := by
  simp only [ParseStatementOrDeclaration, h]

theorem PSoD_kw_return (lang : LangOptions) (c : Collab) (b : Bool) (s : PState)
    (h : curKind s = .kw_return) :
    ParseStatementOrDeclaration lang c b s
      = finishSemi (ParseReturnStatement c s) "return statement" := by
  simp only [ParseStatementOrDeclaration, h]

theorem PSoD_default (lang : LangOptions) (c : Collab) (b : Bool) (s : PState)
    (h1 : curKind s ≠ .l_brace) (h2 : curKind s ≠ .semi) (h3 : curKind s ≠ .kw_if)
    (h4 : curKind s ≠ .kw_switch) (h5 : curKind s ≠ .kw_while) (h6 : curKind s ≠ .kw_do)
    (h7 : curKind s ≠ .kw_for) (h8 : curKind s ≠ .kw_goto) (h9 : curKind s ≠ .kw_continue)
    (h10 : curKind s ≠ .kw_break) (h11 : curKind s ≠ .kw_return) :
    ParseStatementOrDeclaration lang c b s
      = SkipUntil .semi (diagTok s .err_expected_statement_declaration) := by
  cases hk : curKind s <;> simp only [ParseStatementOrDeclaration, hk] <;> simp_all

theorem ParseStatement_eq (lang : LangOptions) (c : Collab) (s : PState) :
    ParseStatement lang c s = ParseStatementOrDeclaration lang c true s := by
  simp only [ParseStatement]

theorem PCS_nil (lang : LangOptions) (c : Collab) (s : PState) (h0 : s.toks = []) :
    ParseCompoundStatement lang c s = s := by
  simp only [ParseCompoundStatement]
  split
  · rfl
  · rename_i head rest heq
    rw [h0] at heq
    cases heq

theorem PCS_cons (lang : LangOptions) (c : Collab) (s : PState) (t : Token)
    (rest : List Token) (h0 : s.toks = t :: rest) :
    ParseCompoundStatement lang c s = compoundBody lang c { s with toks := rest } := by
  simp only [ParseCompoundStatement]
  split
  · rename_i heq
    rw [h0] at heq
    cases heq
  · rename_i head rest2 heq
    rw [h0] at heq
    cases heq
    rfl

theorem PIf_nil (lang : LangOptions) (c : Collab) (s : PState) (h0 : s.toks = []) :
    ParseIfStatement lang c s = s := by
  rw [ParseIfStatement]
  split
  · rfl
  · rename_i head rest heq
    rw [h0] at heq
    cases heq

theorem PIf_noparen (lang : LangOptions) (c : Collab) (t : Token) (rest : List Token)
    (ds : List Diag) (ec : Nat) (h : curKind ⟨rest, ds, ec⟩ ≠ .l_paren) :
    ParseIfStatement lang c ⟨t :: rest, ds, ec⟩
      = SkipUntil .semi (diagTok ⟨rest, ds, ec⟩ (.err_expected_lparen_after "if")) := by
  simp only [ParseIfStatement]
  split
  · rfl
  · rename_i hc
    exact absurd h hc

theorem PIf_noelse (lang : LangOptions) (c : Collab) (t : Token) (rest : List Token)
    (ds : List Diag) (ec : Nat) (hp : curKind ⟨rest, ds, ec⟩ = .l_paren)
    (he : curKind (ParseStatement lang c (ParseParenExpression c ⟨rest, ds, ec⟩))
      ≠ .kw_else) :
    ParseIfStatement lang c ⟨t :: rest, ds, ec⟩
      = ParseStatement lang c (ParseParenExpression c ⟨rest, ds, ec⟩) := by
  simp only [ParseIfStatement]
  repeat' split
  all_goals simp_all

theorem PIf_else_guard (lang : LangOptions) (c : Collab) (t : Token) (rest : List Token)
    (ds : List Diag) (ec : Nat) (hp : curKind ⟨rest, ds, ec⟩ = .l_paren)
    (he : curKind (ParseStatement lang c (ParseParenExpression c ⟨rest, ds, ec⟩))
      = .kw_else)
    (hlt : (consumeToken (ParseStatement lang c
        (ParseParenExpression c ⟨rest, ds, ec⟩))).toks.length < rest.length + 1) :
    ParseIfStatement lang c ⟨t :: rest, ds, ec⟩
      = ParseStatement lang c (consumeToken (ParseStatement lang c
          (ParseParenExpression c ⟨rest, ds, ec⟩))) := by
  simp only [ParseIfStatement]
  repeat' split
  all_goals simp_all

theorem PSwitch_nil (lang : LangOptions) (c : Collab) (s : PState) (h0 : s.toks = []) :
    ParseSwitchStatement lang c s = s := by
  rw [ParseSwitchStatement]
  split
  · rfl
  · rename_i head rest heq
    rw [h0] at heq
    cases heq

theorem PSwitch_noparen (lang : LangOptions) (c : Collab) (t : Token) (rest : List Token)
    (ds : List Diag) (ec : Nat) (h : curKind ⟨rest, ds, ec⟩ ≠ .l_paren) :
    ParseSwitchStatement lang c ⟨t :: rest, ds, ec⟩
      = SkipUntil .semi (diagTok ⟨rest, ds, ec⟩ (.err_expected_lparen_after "switch")) := by
  simp only [ParseSwitchStatement]
  split
  · rfl
  · rename_i hc
    exact absurd h hc

theorem PSwitch_main (lang : LangOptions) (c : Collab) (t : Token) (rest : List Token)
    (ds : List Diag) (ec : Nat) (hp : curKind ⟨rest, ds, ec⟩ = .l_paren) :
    ParseSwitchStatement lang c ⟨t :: rest, ds, ec⟩
      = ParseStatement lang c (ParseParenExpression c ⟨rest, ds, ec⟩) := by
  simp only [ParseSwitchStatement]
  repeat' split
  all_goals simp_all

theorem PWhile_nil (lang : LangOptions) (c : Collab) (s : PState) (h0 : s.toks = []) :
    ParseWhileStatement lang c s = s := by
  rw [ParseWhileStatement]
  split
  · rfl
  · rename_i head rest heq
    rw [h0] at heq
    cases heq

theorem PWhile_noparen (lang : LangOptions) (c : Collab) (t : Token) (rest : List Token)
    (ds : List Diag) (ec : Nat) (h : curKind ⟨rest, ds, ec⟩ ≠ .l_paren) :
    ParseWhileStatement lang c ⟨t :: rest, ds, ec⟩
      = SkipUntil .semi (diagTok ⟨rest, ds, ec⟩ (.err_expected_lparen_after "while")) := by
  simp only [ParseWhileStatement]
  split
  · rfl
  · rename_i hc
    exact absurd h hc

theorem PWhile_main (lang : LangOptions) (c : Collab) (t : Token) (rest : List Token)
    (ds : List Diag) (ec : Nat) (hp : curKind ⟨rest, ds, ec⟩ = .l_paren) :
    ParseWhileStatement lang c ⟨t :: rest, ds, ec⟩
      = ParseStatement lang c (ParseParenExpression c ⟨rest, ds, ec⟩) := by
  simp only [ParseWhileStatement]
  repeat' split
  all_goals simp_all

theorem compoundBody_rbrace (lang : LangOptions) (c : Collab) (s : PState)
    (h : curKind s = .r_brace) :
    compoundBody lang c s = consumeToken s := by
  rw [compoundBody]
  rw [if_neg (by simp [h])]
  rw [if_pos h]

theorem compoundBody_eof (lang : LangOptions) (c : Collab) (s : PState)
    (h : curKind s = .eof) :
    compoundBody lang c s = diagTok s .err_expected_rbrace := by
  rw [compoundBody]
  rw [if_neg (by simp [h])]
  rw [if_neg (by simp [h])]

theorem PDo_nil (lang : LangOptions) (c : Collab) (s : PState) (h0 : s.toks = []) :
    ParseDoStatement lang c s = s := by
  rw [ParseDoStatement]
  split
  · rfl
  · rename_i head rest heq
    rw [h0] at heq
    cases heq

theorem PDo_nowhile (lang : LangOptions) (c : Collab) (t : Token) (rest : List Token)
    (ds : List Diag) (ec : Nat)
    (hw : curKind (ParseStatement lang c ⟨rest, ds, ec⟩) ≠ .kw_while) :
    ParseDoStatement lang c ⟨t :: rest, ds, ec⟩
      = SkipUntil .semi (addDiag (diagTok (ParseStatement lang c ⟨rest, ds, ec⟩)
          .err_expected_while) t.loc .err_matching) := by
  simp only [ParseDoStatement]
  repeat' split
  all_goals simp_all [curLoc]

theorem PDo_noparen (lang : LangOptions) (c : Collab) (t : Token) (rest : List Token)
    (ds : List Diag) (ec : Nat)
    (hw : curKind (ParseStatement lang c ⟨rest, ds, ec⟩) = .kw_while)
    (hp : curKind (consumeToken (ParseStatement lang c ⟨rest, ds, ec⟩)) ≠ .l_paren) :
    ParseDoStatement lang c ⟨t :: rest, ds, ec⟩
      = SkipUntil .semi (diagTok (consumeToken (ParseStatement lang c ⟨rest, ds, ec⟩))
          (.err_expected_lparen_after "do/while")) := by
  simp only [ParseDoStatement]
  repeat' split
  all_goals simp_all

theorem PDo_ok (lang : LangOptions) (c : Collab) (t : Token) (rest : List Token)
    (ds : List Diag) (ec : Nat)
    (hw : curKind (ParseStatement lang c ⟨rest, ds, ec⟩) = .kw_while)
    (hp : curKind (consumeToken (ParseStatement lang c ⟨rest, ds, ec⟩)) = .l_paren) :
    ParseDoStatement lang c ⟨t :: rest, ds, ec⟩
      = ParseParenExpression c (consumeToken (ParseStatement lang c ⟨rest, ds, ec⟩)) := by
  simp only [ParseDoStatement]
  repeat' split
  all_goals simp_all

theorem PFor_nil (lang : LangOptions) (c : Collab) (s : PState) (h0 : s.toks = []) :
    ParseForStatement lang c s = s := by
  rw [ParseForStatement]
  split
  · rfl
  · rename_i head rest heq
    rw [h0] at heq
    cases heq

theorem PFor_noparen (lang : LangOptions) (c : Collab) (t : Token) (rest : List Token)
    (ds : List Diag) (ec : Nat) (h : curKind ⟨rest, ds, ec⟩ ≠ .l_paren) :
    ParseForStatement lang c ⟨t :: rest, ds, ec⟩
      = SkipUntil .semi (diagTok ⟨rest, ds, ec⟩ (.err_expected_lparen_after "for")) := by
  simp only [ParseForStatement]
  repeat' split
  all_goals simp_all

theorem PFor_firstsemi (lang : LangOptions) (c : Collab) (t : Token) (rest : List Token)
    (ds : List Diag) (ec : Nat) (hp : curKind ⟨rest, ds, ec⟩ = .l_paren)
    (hs : curKind (consumeToken ⟨rest, ds, ec⟩) = .semi) :
    ParseForStatement lang c ⟨t :: rest, ds, ec⟩
      = forSecondPart lang c t.loc (curLoc ⟨rest, ds, ec⟩)
          (consumeToken (consumeToken ⟨rest, ds, ec⟩)) := by
  simp only [ParseForStatement]
  repeat' split
  all_goals simp_all [curLoc]

theorem PFor_decl (lang : LangOptions) (c : Collab) (t : Token) (rest : List Token)
    (ds : List Diag) (ec : Nat) (hp : curKind ⟨rest, ds, ec⟩ = .l_paren)
    (hs : curKind (consumeToken ⟨rest, ds, ec⟩) ≠ .semi)
    (hd : c.isDeclarationSpecifier (consumeToken ⟨rest, ds, ec⟩).toks = true) :
    ParseForStatement lang c ⟨t :: rest, ds, ec⟩
      = forSecondPart lang c t.loc (curLoc ⟨rest, ds, ec⟩)
          (ParseDeclaration c (if lang.C99 = false
            then diagTok (consumeToken ⟨rest, ds, ec⟩) .ext_c99_variable_decl_in_for_loop
            else consumeToken ⟨rest, ds, ec⟩)) := by
  simp only [ParseForStatement]
  repeat' split
  all_goals simp_all [curLoc]

theorem PFor_expr_semi (lang : LangOptions) (c : Collab) (t : Token) (rest : List Token)
    (ds : List Diag) (ec : Nat) (hp : curKind ⟨rest, ds, ec⟩ = .l_paren)
    (hs : curKind (consumeToken ⟨rest, ds, ec⟩) ≠ .semi)
    (hd : c.isDeclarationSpecifier (consumeToken ⟨rest, ds, ec⟩).toks = false)
    (hes : curKind (ParseExpression c (consumeToken ⟨rest, ds, ec⟩)) = .semi) :
    ParseForStatement lang c ⟨t :: rest, ds, ec⟩
      = forSecondPart lang c t.loc (curLoc ⟨rest, ds, ec⟩)
          (consumeToken (ParseExpression c (consumeToken ⟨rest, ds, ec⟩))) := by
  simp only [ParseForStatement]
  repeat' split
  all_goals simp_all [curLoc]

theorem PFor_expr_nosemi (lang : LangOptions) (c : Collab) (t : Token) (rest : List Token)
    (ds : List Diag) (ec : Nat) (hp : curKind ⟨rest, ds, ec⟩ = .l_paren)
    (hs : curKind (consumeToken ⟨rest, ds, ec⟩) ≠ .semi)
    (hd : c.isDeclarationSpecifier (consumeToken ⟨rest, ds, ec⟩).toks = false)
    (hes : curKind (ParseExpression c (consumeToken ⟨rest, ds, ec⟩)) ≠ .semi) :
    ParseForStatement lang c ⟨t :: rest, ds, ec⟩
      = forSecondPart lang c t.loc (curLoc ⟨rest, ds, ec⟩)
          (SkipUntil .semi (addDiag (diagTok (ParseExpression c
              (consumeToken ⟨rest, ds, ec⟩)) .err_expected_semi_for) t.loc .err_matching)) := by
  simp only [ParseForStatement]
  repeat' split
  all_goals simp_all [curLoc]

theorem forSecondPart_eq (lang : LangOptions) (c : Collab) (ForLoc LParenLoc : Nat)
    (s : PState) :
    forSecondPart lang c ForLoc LParenLoc s
      = forThirdPart lang c ForLoc LParenLoc (forClauseSemi c ForLoc s) := by
  rw [forSecondPart]

theorem PF3_rparen (lang : LangOptions) (c : Collab) (ForLoc LParenLoc : Nat) (s : PState)
    (hr : curKind (optExpr c .r_paren s) = .r_paren) :
    forThirdPart lang c ForLoc LParenLoc s
      = ParseStatement lang c (consumeToken (optExpr c .r_paren s)) := by
  rw [forThirdPart]
  rw [dif_pos hr]

theorem PF3_norparen (lang : LangOptions) (c : Collab) (ForLoc LParenLoc : Nat) (s : PState)
    (hr : curKind (optExpr c .r_paren s) ≠ .r_paren) :
    forThirdPart lang c ForLoc LParenLoc s
      = SkipUntil .r_paren (addDiag (diagTok (optExpr c .r_paren s) .err_expected_rparen)
          LParenLoc .err_matching) := by
  rw [forThirdPart]
  rw [dif_neg hr]

theorem PGoto_id (lang : LangOptions) (c : Collab) (t : Token) (rest : List Token)
    (ds : List Diag) (ec : Nat) (hi : curKind ⟨rest, ds, ec⟩ = .identifier) :
    ParseGotoStatement lang c ⟨t :: rest, ds, ec⟩ = consumeToken ⟨rest, ds, ec⟩ := by
  simp only [ParseGotoStatement]
  rw [if_pos hi]

theorem PGoto_star (lang : LangOptions) (c : Collab) (t : Token) (rest : List Token)
    (ds : List Diag) (ec : Nat) (hi : curKind ⟨rest, ds, ec⟩ ≠ .identifier)
    (hs : curKind ⟨rest, ds, ec⟩ = .star) (hx : lang.NoExtensions = false) :
    ParseGotoStatement lang c ⟨t :: rest, ds, ec⟩
      = ParseExpression c (consumeToken (diagTok ⟨rest, ds, ec⟩ .ext_gnu_indirect_goto)) := by
  simp only [ParseGotoStatement]
  rw [if_neg hi]
  rw [if_pos ⟨hs, hx⟩]

theorem PGoto_other (lang : LangOptions) (c : Collab) (t : Token) (rest : List Token)
    (ds : List Diag) (ec : Nat) (hi : curKind ⟨rest, ds, ec⟩ ≠ .identifier)
    (ho : ¬(curKind ⟨rest, ds, ec⟩ = .star ∧ lang.NoExtensions = false)) :
    ParseGotoStatement lang c ⟨t :: rest, ds, ec⟩ = ⟨rest, ds, ec⟩ := by
  simp only [ParseGotoStatement]
  rw [if_neg hi]
  rw [if_neg ho]

theorem PReturn_semi (c : Collab) (t : Token) (rest : List Token)
    (ds : List Diag) (ec : Nat) (hs : curKind ⟨rest, ds, ec⟩ = .semi) :
    ParseReturnStatement c ⟨t :: rest, ds, ec⟩ = ⟨rest, ds, ec⟩ := by
  simp only [ParseReturnStatement]
  rw [if_neg (by simp [hs])]

theorem PReturn_expr (c : Collab) (t : Token) (rest : List Token)
    (ds : List Diag) (ec : Nat) (hs : curKind ⟨rest, ds, ec⟩ ≠ .semi) :
    ParseReturnStatement c ⟨t :: rest, ds, ec⟩ = ParseExpression c ⟨rest, ds, ec⟩ := by
  simp only [ParseReturnStatement]
  rw [if_pos hs]

theorem finishSemi_semi (s : PState) (e : String) (h : curKind s = .semi) :
    finishSemi s e = consumeToken s := by
  unfold finishSemi
  rw [if_pos h]

theorem finishSemi_nosemi (s : PState) (e : String) (h : curKind s ≠ .semi) :
    finishSemi s e = SkipUntil .semi (diagTok s (.err_expected_semi_after e)) := by
  unfold finishSemi
  rw [if_neg h]

theorem PIf_else_stuck (lang : LangOptions) (c : Collab) (t : Token) (rest : List Token)
    (ds : List Diag) (ec : Nat) (hp : curKind ⟨rest, ds, ec⟩ = .l_paren)
    (he : curKind (ParseStatement lang c (ParseParenExpression c ⟨rest, ds, ec⟩))
      = .kw_else)
    (hnlt : ¬(consumeToken (ParseStatement lang c
        (ParseParenExpression c ⟨rest, ds, ec⟩))).toks.length < rest.length + 1) :
    ParseIfStatement lang c ⟨t :: rest, ds, ec⟩
      = consumeToken (ParseStatement lang c
          (ParseParenExpression c ⟨rest, ds, ec⟩)) := by
  simp only [ParseIfStatement]
  repeat' split
  all_goals simp_all
  all_goals omega

theorem compoundBody_step_guard (lang : LangOptions) (c : Collab) (s : PState)
    (hg : curKind s ≠ .r_brace ∧ curKind s ≠ .eof)
    (hlt : (ParseStatementOrDeclaration lang c false s).toks.length < s.toks.length) :
    compoundBody lang c s
      = compoundBody lang c (ParseStatementOrDeclaration lang c false s) := by
  conv_lhs => rw [compoundBody]
  rw [if_pos hg]
  show (if h : (ParseStatementOrDeclaration lang c false s).toks.length < s.toks.length
      then compoundBody lang c (ParseStatementOrDeclaration lang c false s)
      else ParseStatementOrDeclaration lang c false s) = _
  rw [dif_pos hlt]

theorem compoundBody_stuck (lang : LangOptions) (c : Collab) (s : PState)
    (hg : curKind s ≠ .r_brace ∧ curKind s ≠ .eof)
    (hnlt : ¬(ParseStatementOrDeclaration lang c false s).toks.length < s.toks.length) :
    compoundBody lang c s = ParseStatementOrDeclaration lang c false s := by
  conv_lhs => rw [compoundBody]
  rw [if_pos hg]
  show (if h : (ParseStatementOrDeclaration lang c false s).toks.length < s.toks.length
      then compoundBody lang c (ParseStatementOrDeclaration lang c false s)
      else ParseStatementOrDeclaration lang c false s) = _
  rw [dif_neg hnlt]

theorem diagTok_toks_length (s : PState) (k : DiagKind) :
    (diagTok s k).toks.length = s.toks.length := by
  rw [toks_diagTok]

theorem SkipUntil_diagTok_toks_le (k : TokKind) (s : PState) (dk : DiagKind) :
    (SkipUntil k (diagTok s dk)).toks.length ≤ s.toks.length :=
  le_trans (SkipUntil_toks_length_le k (diagTok s dk)) (le_of_eq (diagTok_toks_length s dk))

theorem SkipUntil_two_diag_toks_le (k : TokKind) (s : PState) (dk : DiagKind)
    (loc : Nat) (dk2 : DiagKind) :
    (SkipUntil k (addDiag (diagTok s dk) loc dk2)).toks.length ≤ s.toks.length := by
  refine le_trans (SkipUntil_toks_length_le k (addDiag (diagTok s dk) loc dk2)) ?_
  simp [addDiag, diagTok]

theorem ParseGotoStatement_toks_length_le (lang : LangOptions) (c : Collab) (s : PState) :
    (ParseGotoStatement lang c s).toks.length ≤ s.toks.length := by
  obtain ⟨tks, ds, ec⟩ := s
  cases tks with
  | nil => simp [ParseGotoStatement]
  | cons t rest =>
    simp only [ParseGotoStatement]
    split
    · simp [consumeToken]
      omega
    · split
      · refine le_trans (ParseExpression_toks_length_le _ _) ?_
        simp [consumeToken, diagTok, addDiag]
        omega
      · simp

theorem ParseReturnStatement_toks_length_le (c : Collab) (s : PState) :
    (ParseReturnStatement c s).toks.length ≤ s.toks.length := by
  obtain ⟨tks, ds, ec⟩ := s
  cases tks with
  | nil => simp [ParseReturnStatement]
  | cons t rest =>
    simp only [ParseReturnStatement]
    split
    · refine le_trans (ParseExpression_toks_length_le _ _) ?_
      simp
    · simp

/-- Every routine of the statement parser leaves the stream no longer than it
found it: parsing only consumes tokens (proved simultaneously for the whole
mutual recursion by functional induction). -/
theorem toksLen_bundle (lang : LangOptions) (c : Collab) :
    (∀ (b : Bool) (s : PState),
        (ParseStatementOrDeclaration lang c b s).toks.length ≤ s.toks.length)
    ∧ (∀ s : PState, (ParseForStatement lang c s).toks.length ≤ s.toks.length)
    ∧ (∀ (FL LP : Nat) (s : PState),
        (forSecondPart lang c FL LP s).toks.length ≤ s.toks.length)
    ∧ (∀ (FL LP : Nat) (s : PState),
        (forThirdPart lang c FL LP s).toks.length ≤ s.toks.length)
    ∧ (∀ s : PState, (ParseStatement lang c s).toks.length ≤ s.toks.length)
    ∧ (∀ s : PState, (ParseDoStatement lang c s).toks.length ≤ s.toks.length)
    ∧ (∀ s : PState, (ParseWhileStatement lang c s).toks.length ≤ s.toks.length)
    ∧ (∀ s : PState, (ParseSwitchStatement lang c s).toks.length ≤ s.toks.length)
    ∧ (∀ s : PState, (ParseIfStatement lang c s).toks.length ≤ s.toks.length)
    ∧ (∀ s : PState, (ParseCompoundStatement lang c s).toks.length ≤ s.toks.length)
    ∧ (∀ s : PState, (compoundBody lang c s).toks.length ≤ s.toks.length) := by
  refine ParseStatementOrDeclaration.mutual_induct lang c
    (fun b s => (ParseStatementOrDeclaration lang c b s).toks.length ≤ s.toks.length)
    (fun s => (ParseForStatement lang c s).toks.length ≤ s.toks.length)
    (fun FL LP s => (forSecondPart lang c FL LP s).toks.length ≤ s.toks.length)
    (fun FL LP s => (forThirdPart lang c FL LP s).toks.length ≤ s.toks.length)
    (fun s => (ParseStatement lang c s).toks.length ≤ s.toks.length)
    (fun s => (ParseDoStatement lang c s).toks.length ≤ s.toks.length)
    (fun s => (ParseWhileStatement lang c s).toks.length ≤ s.toks.length)
    (fun s => (ParseSwitchStatement lang c s).toks.length ≤ s.toks.length)
    (fun s => (ParseIfStatement lang c s).toks.length ≤ s.toks.length)
    (fun s => (ParseCompoundStatement lang c s).toks.length ≤ s.toks.length)
    (fun s => (compoundBody lang c s).toks.length ≤ s.toks.length)
    ?c1 ?c2 ?c3 ?c4 ?c5 ?c6 ?c7 ?c8 ?c9 ?c10 ?c11 ?c12 ?c13 ?c14 ?c15 ?c16 ?c17
    ?c18 ?c19 ?c20 ?c21 ?c22 ?c23 ?c24 ?c25 ?c26 ?c27 ?c28 ?c29 ?c30 ?c31 ?c32
    ?c33 ?c34 ?c35 ?c36 ?c37 ?c38 ?c39 ?c40 ?c41 ?c42 ?c43
  case c1 =>
    intro b s hk ih
    rw [PSoD_l_brace lang c b s hk]
    exact ih
  case c2 =>
    intro b s hk
    rw [PSoD_semi lang c b s hk]
    exact consumeToken_toks_length_le s
  case c3 =>
    intro b s hk ih
    rw [PSoD_kw_if lang c b s hk]
    exact ih
  case c4 =>
    intro b s hk ih
    rw [PSoD_kw_switch lang c b s hk]
    exact ih
  case c5 =>
    intro b s hk ih
    rw [PSoD_kw_while lang c b s hk]
    exact ih
  case c6 =>
    intro b s hk ih
    rw [PSoD_kw_do lang c b s hk]
    exact le_trans (finishSemi_toks_length_le _ _) ih
  case c7 =>
    intro b s hk ih
    rw [PSoD_kw_for lang c b s hk]
    exact ih
  case c8 =>
    intro b s hk
    rw [PSoD_kw_goto lang c b s hk]
    exact le_trans (finishSemi_toks_length_le _ _)
      (ParseGotoStatement_toks_length_le lang c s)
  case c9 =>
    intro b s hk
    rw [PSoD_kw_continue lang c b s hk]
    exact le_trans (finishSemi_toks_length_le _ _) (consumeToken_toks_length_le s)
  case c10 =>
    intro b s hk
    rw [PSoD_kw_break lang c b s hk]
    exact le_trans (finishSemi_toks_length_le _ _) (consumeToken_toks_length_le s)
  case c11 =>
    intro b s hk
    rw [PSoD_kw_return lang c b s hk]
    exact le_trans (finishSemi_toks_length_le _ _)
      (ParseReturnStatement_toks_length_le c s)
  case c12 =>
    intro b s h1 h2 h3 h4 h5 h6 h7 h8 h9 h10 h11
    rw [PSoD_default lang c b s h1 h2 h3 h4 h5 h6 h7 h8 h9 h10 h11]
    exact SkipUntil_diagTok_toks_le _ _ _
  case c13 =>
    intro s h0
    rw [PFor_nil lang c s h0]
  case c14 =>
    intro s head rest h0
    obtain ⟨tks, sds, sec⟩ := s
    obtain rfl : tks = head :: rest := h0
    intro s1 hnp
    unfold_let s1 at hnp
    rw [PFor_noparen lang c head rest sds sec hnp]
    refine le_trans (SkipUntil_diagTok_toks_le _ _ _) ?_
    simp
  case c15 =>
    intro s head rest h0
    obtain ⟨tks, sds, sec⟩ := s
    obtain rfl : tks = head :: rest := h0
    intro FL s1 hp LP s2 hsemi ih
    have hp2 : curKind (⟨rest, sds, sec⟩ : PState) = TokKind.l_paren := not_not.mp hp
    have hsemi2 : curKind (consumeToken (⟨rest, sds, sec⟩ : PState)) = TokKind.semi := hsemi
    have ih2 : (forSecondPart lang c FL LP (consumeToken (consumeToken
        (⟨rest, sds, sec⟩ : PState)))).toks.length
        ≤ (consumeToken (consumeToken (⟨rest, sds, sec⟩ : PState))).toks.length := ih
    rw [PFor_firstsemi lang c head rest sds sec hp2 hsemi2]
    refine le_trans ih2 ?_
    simp [consumeToken]
    omega
  case c16 =>
    intro s head rest h0
    obtain ⟨tks, sds, sec⟩ := s
    obtain rfl : tks = head :: rest := h0
    intro FL s1 hp LP s2 hns hd s3 ih
    have hp2 : curKind (⟨rest, sds, sec⟩ : PState) = TokKind.l_paren := not_not.mp hp
    have hns2 : curKind (consumeToken (⟨rest, sds, sec⟩ : PState)) ≠ TokKind.semi := hns
    have hd2 : c.isDeclarationSpecifier
        (consumeToken (⟨rest, sds, sec⟩ : PState)).toks = true := hd
    have ih2 : (forSecondPart lang c FL LP (ParseDeclaration c (if lang.C99 = false
        then diagTok (consumeToken (⟨rest, sds, sec⟩ : PState))
          DiagKind.ext_c99_variable_decl_in_for_loop
        else consumeToken (⟨rest, sds, sec⟩ : PState)))).toks.length
        ≤ (ParseDeclaration c (if lang.C99 = false
        then diagTok (consumeToken (⟨rest, sds, sec⟩ : PState))
          DiagKind.ext_c99_variable_decl_in_for_loop
        else consumeToken (⟨rest, sds, sec⟩ : PState))).toks.length := ih
    rw [PFor_decl lang c head rest sds sec hp2 hns2 hd2]
    refine le_trans ih2 ?_
    refine le_trans (ParseDeclaration_toks_length_le _ _) ?_
    have h3 : (if lang.C99 = false
        then diagTok (consumeToken (⟨rest, sds, sec⟩ : PState))
          DiagKind.ext_c99_variable_decl_in_for_loop
        else consumeToken (⟨rest, sds, sec⟩ : PState)).toks.length
        = (consumeToken (⟨rest, sds, sec⟩ : PState)).toks.length := by
      split <;> simp [diagTok, addDiag]
    rw [h3]
    simp [consumeToken]
    omega
  case c17 =>
    intro s head rest h0
    obtain ⟨tks, sds, sec⟩ := s
    obtain rfl : tks = head :: rest := h0
    intro FL s1 hp LP s2 hns hnd s3 hes ih
    have hp2 : curKind (⟨rest, sds, sec⟩ : PState) = TokKind.l_paren := not_not.mp hp
    have hns2 : curKind (consumeToken (⟨rest, sds, sec⟩ : PState)) ≠ TokKind.semi := hns
    have hnd2 : ¬c.isDeclarationSpecifier
        (consumeToken (⟨rest, sds, sec⟩ : PState)).toks = true := hnd
    have hd2 : c.isDeclarationSpecifier
        (consumeToken (⟨rest, sds, sec⟩ : PState)).toks = false := by
      simpa using hnd2
    have hes2 : curKind (ParseExpression c (consumeToken
        (⟨rest, sds, sec⟩ : PState))) = TokKind.semi := hes
    have ih2 : (forSecondPart lang c FL LP (consumeToken (ParseExpression c (consumeToken
        (⟨rest, sds, sec⟩ : PState))))).toks.length
        ≤ (consumeToken (ParseExpression c (consumeToken
        (⟨rest, sds, sec⟩ : PState)))).toks.length := ih
    rw [PFor_expr_semi lang c head rest sds sec hp2 hns2 hd2 hes2]
    refine le_trans ih2 ?_
    refine le_trans (consumeToken_toks_length_le _) ?_
    refine le_trans (ParseExpression_toks_length_le _ _) ?_
    simp [consumeToken]
    omega
  case c18 =>
    intro s head rest h0
    obtain ⟨tks, sds, sec⟩ := s
    obtain rfl : tks = head :: rest := h0
    intro FL s1 hp LP s2 hns hnd s3 hnes ih
    have hp2 : curKind (⟨rest, sds, sec⟩ : PState) = TokKind.l_paren := not_not.mp hp
    have hns2 : curKind (consumeToken (⟨rest, sds, sec⟩ : PState)) ≠ TokKind.semi := hns
    have hnd2 : ¬c.isDeclarationSpecifier
        (consumeToken (⟨rest, sds, sec⟩ : PState)).toks = true := hnd
    have hd2 : c.isDeclarationSpecifier
        (consumeToken (⟨rest, sds, sec⟩ : PState)).toks = false := by
      simpa using hnd2
    have hnes2 : curKind (ParseExpression c (consumeToken
        (⟨rest, sds, sec⟩ : PState))) ≠ TokKind.semi := hnes
    have ih2 : (forSecondPart lang c FL LP (SkipUntil TokKind.semi
        (addDiag (diagTok (ParseExpression c (consumeToken (⟨rest, sds, sec⟩ : PState)))
          DiagKind.err_expected_semi_for) head.loc DiagKind.err_matching))).toks.length
        ≤ (SkipUntil TokKind.semi
        (addDiag (diagTok (ParseExpression c (consumeToken (⟨rest, sds, sec⟩ : PState)))
          DiagKind.err_expected_semi_for) head.loc DiagKind.err_matching)).toks.length := ih
    rw [PFor_expr_nosemi lang c head rest sds sec hp2 hns2 hd2 hnes2]
    refine le_trans ih2 ?_
    refine le_trans (SkipUntil_two_diag_toks_le _ _ _ _ _) ?_
    refine le_trans (ParseExpression_toks_length_le _ _) ?_
    simp [consumeToken]
    omega
  case c19 =>
    intro FL LP s ih
    rw [forSecondPart_eq]
    exact le_trans ih (forClauseSemi_toks_length_le c FL s)
  case c20 =>
    intro FL LP s hr ih
    rw [PF3_rparen lang c FL LP s hr]
    refine le_trans ih ?_
    exact le_trans (consumeToken_toks_length_le _) (optExpr_toks_length_le c _ s)
  case c21 =>
    intro FL LP s hr
    rw [PF3_norparen lang c FL LP s hr]
    exact le_trans (SkipUntil_two_diag_toks_le _ _ _ _ _) (optExpr_toks_length_le c _ s)
  case c22 =>
    intro s ih
    rw [ParseStatement_eq]
    exact ih
  case c23 =>
    intro s h0
    rw [PDo_nil lang c s h0]
  case c24 =>
    intro s head rest h0
    obtain ⟨tks, sds, sec⟩ := s
    obtain rfl : tks = head :: rest := h0
    intro s1 hw ih
    unfold_let s1 at hw
    rw [PDo_nowhile lang c head rest sds sec hw]
    refine le_trans (SkipUntil_two_diag_toks_le _ _ _ _ _) ?_
    refine le_trans ih ?_
    simp
  case c25 =>
    intro s head rest h0
    obtain ⟨tks, sds, sec⟩ := s
    obtain rfl : tks = head :: rest := h0
    intro s1 hw s2 hp ih
    unfold_let s2 s1 at hw hp
    have hw2 := not_not.mp hw
    rw [PDo_noparen lang c head rest sds sec hw2 hp]
    refine le_trans (SkipUntil_diagTok_toks_le _ _ _) ?_
    refine le_trans (consumeToken_toks_length_le _) ?_
    refine le_trans ih ?_
    simp
  case c26 =>
    intro s head rest h0
    obtain ⟨tks, sds, sec⟩ := s
    obtain rfl : tks = head :: rest := h0
    intro s1 hw s2 hp ih
    unfold_let s2 s1 at hw hp
    have hw2 := not_not.mp hw
    have hp2 := not_not.mp hp
    rw [PDo_ok lang c head rest sds sec hw2 hp2]
    refine le_trans (ParseParenExpression_toks_length_le _ _) ?_
    refine le_trans (consumeToken_toks_length_le _) ?_
    refine le_trans ih ?_
    simp
  case c27 =>
    intro s h0
    rw [PWhile_nil lang c s h0]
  case c28 =>
    intro s head rest h0
    obtain ⟨tks, sds, sec⟩ := s
    obtain rfl : tks = head :: rest := h0
    intro s1 hnp
    unfold_let s1 at hnp
    rw [PWhile_noparen lang c head rest sds sec hnp]
    refine le_trans (SkipUntil_diagTok_toks_le _ _ _) ?_
    simp
  case c29 =>
    intro s head rest h0
    obtain ⟨tks, sds, sec⟩ := s
    obtain rfl : tks = head :: rest := h0
    intro s1 hp ih
    unfold_let s1 at hp ih
    have hp2 := not_not.mp hp
    rw [PWhile_main lang c head rest sds sec hp2]
    refine le_trans ih ?_
    refine le_trans (ParseParenExpression_toks_length_le _ _) ?_
    simp
  case c30 =>
    intro s h0
    rw [PSwitch_nil lang c s h0]
  case c31 =>
    intro s head rest h0
    obtain ⟨tks, sds, sec⟩ := s
    obtain rfl : tks = head :: rest := h0
    intro s1 hnp
    unfold_let s1 at hnp
    rw [PSwitch_noparen lang c head rest sds sec hnp]
    refine le_trans (SkipUntil_diagTok_toks_le _ _ _) ?_
    simp
  case c32 =>
    intro s head rest h0
    obtain ⟨tks, sds, sec⟩ := s
    obtain rfl : tks = head :: rest := h0
    intro s1 hp ih
    unfold_let s1 at hp ih
    have hp2 := not_not.mp hp
    rw [PSwitch_main lang c head rest sds sec hp2]
    refine le_trans ih ?_
    refine le_trans (ParseParenExpression_toks_length_le _ _) ?_
    simp
  case c33 =>
    intro s h0
    rw [PIf_nil lang c s h0]
  case c34 =>
    intro s head rest h0
    obtain ⟨tks, sds, sec⟩ := s
    obtain rfl : tks = head :: rest := h0
    intro s1 hnp
    unfold_let s1 at hnp
    rw [PIf_noparen lang c head rest sds sec hnp]
    refine le_trans (SkipUntil_diagTok_toks_le _ _ _) ?_
    simp
  case c35 =>
    intro s head rest h0
    obtain ⟨tks, sds, sec⟩ := s
    obtain rfl : tks = head :: rest := h0
    intro s1 hp s2 helse hlt ih1 ih2 ih3
    unfold_let s2 s1 at hp helse hlt ih1 ih3
    have hp2 := not_not.mp hp
    have hlt2 : (consumeToken (ParseStatement lang c
        (ParseParenExpression c ⟨rest, sds, sec⟩))).toks.length < rest.length + 1 := by
      simpa using hlt
    rw [PIf_else_guard lang c head rest sds sec hp2 helse hlt2]
    refine le_trans ih3 ?_
    simpa using le_of_lt hlt2
  case c36 =>
    intro s head rest h0
    obtain ⟨tks, sds, sec⟩ := s
    obtain rfl : tks = head :: rest := h0
    intro s1 hp s2 helse hnlt ih
    unfold_let s2 s1 at hp helse hnlt ih
    have hp2 := not_not.mp hp
    have hnlt2 : ¬(consumeToken (ParseStatement lang c
        (ParseParenExpression c ⟨rest, sds, sec⟩))).toks.length < rest.length + 1 := by
      simpa using hnlt
    rw [PIf_else_stuck lang c head rest sds sec hp2 helse hnlt2]
    refine le_trans (consumeToken_toks_length_le _) ?_
    refine le_trans ih ?_
    refine le_trans (ParseParenExpression_toks_length_le _ _) ?_
    simp
  case c37 =>
    intro s head rest h0
    obtain ⟨tks, sds, sec⟩ := s
    obtain rfl : tks = head :: rest := h0
    intro s1 hp s2 hne ih
    unfold_let s2 s1 at hp hne ih
    have hp2 := not_not.mp hp
    rw [PIf_noelse lang c head rest sds sec hp2 hne]
    refine le_trans ih ?_
    refine le_trans (ParseParenExpression_toks_length_le _ _) ?_
    simp
  case c38 =>
    intro s h0
    rw [PCS_nil lang c s h0]
  case c39 =>
    intro s head rest h0
    obtain ⟨tks, sds, sec⟩ := s
    obtain rfl : tks = head :: rest := h0
    intro ih
    rw [PCS_cons lang c ⟨head :: rest, sds, sec⟩ head rest rfl]
    refine le_trans ih ?_
    simp
  case c40 =>
    intro s hg s1 hlt ih1 ih11
    unfold_let s1 at hlt ih11
    rw [compoundBody_step_guard lang c s hg hlt]
    exact le_trans ih11 (le_of_lt hlt)
  case c41 =>
    intro s hg s1 hnlt ih1
    unfold_let s1 at hnlt
    rw [compoundBody_stuck lang c s hg hnlt]
    exact ih1
  case c42 =>
    intro s hng hrb
    rw [compoundBody_rbrace lang c s hrb]
    exact consumeToken_toks_length_le s
  case c43 =>
    intro s hng hnrb
    have heof : curKind s = TokKind.eof := by tauto
    rw [compoundBody_eof lang c s heof]
    exact le_of_eq (diagTok_toks_length s _)

theorem PSoD_toks_le (lang : LangOptions) (c : Collab) (b : Bool) (s : PState) :
    (ParseStatementOrDeclaration lang c b s).toks.length ≤ s.toks.length :=
  (toksLen_bundle lang c).1 b s

theorem ParseFor_toks_le (lang : LangOptions) (c : Collab) (s : PState) :
    (ParseForStatement lang c s).toks.length ≤ s.toks.length :=
  (toksLen_bundle lang c).2.1 s

theorem forSecondPart_toks_le (lang : LangOptions) (c : Collab) (FL LP : Nat) (s : PState) :
    (forSecondPart lang c FL LP s).toks.length ≤ s.toks.length :=
  (toksLen_bundle lang c).2.2.1 FL LP s

theorem forThirdPart_toks_le (lang : LangOptions) (c : Collab) (FL LP : Nat) (s : PState) :
    (forThirdPart lang c FL LP s).toks.length ≤ s.toks.length :=
  (toksLen_bundle lang c).2.2.2.1 FL LP s

theorem ParseStatement_toks_le (lang : LangOptions) (c : Collab) (s : PState) :
    (ParseStatement lang c s).toks.length ≤ s.toks.length :=
  (toksLen_bundle lang c).2.2.2.2.1 s

theorem ParseDo_toks_le (lang : LangOptions) (c : Collab) (s : PState) :
    (ParseDoStatement lang c s).toks.length ≤ s.toks.length :=
  (toksLen_bundle lang c).2.2.2.2.2.1 s

theorem ParseWhile_toks_le (lang : LangOptions) (c : Collab) (s : PState) :
    (ParseWhileStatement lang c s).toks.length ≤ s.toks.length :=
  (toksLen_bundle lang c).2.2.2.2.2.2.1 s

theorem ParseSwitch_toks_le (lang : LangOptions) (c : Collab) (s : PState) :
    (ParseSwitchStatement lang c s).toks.length ≤ s.toks.length :=
  (toksLen_bundle lang c).2.2.2.2.2.2.2.1 s

theorem ParseIf_toks_le (lang : LangOptions) (c : Collab) (s : PState) :
    (ParseIfStatement lang c s).toks.length ≤ s.toks.length :=
  (toksLen_bundle lang c).2.2.2.2.2.2.2.2.1 s

theorem ParseCompound_toks_le (lang : LangOptions) (c : Collab) (s : PState) :
    (ParseCompoundStatement lang c s).toks.length ≤ s.toks.length :=
  (toksLen_bundle lang c).2.2.2.2.2.2.2.2.2.1 s

theorem compoundBody_toks_le (lang : LangOptions) (c : Collab) (s : PState) :
    (compoundBody lang c s).toks.length ≤ s.toks.length :=
  (toksLen_bundle lang c).2.2.2.2.2.2.2.2.2.2 s

/-! Strict bounds: each routine called on a nonempty stream (with its keyword
already identified) leaves at most the tail of the stream. -/

theorem skipToks_cons_le (k : TokKind) (t : Token) (ts : List Token) (h : t.kind ≠ .eof) :
    (skipToks k (t :: ts)).length ≤ ts.length := by
  simp only [skipToks]
  rw [if_neg h]
  split
  · exact le_refl _
  · exact skipToks_length_le k ts

theorem ParseIf_cons_le (lang : LangOptions) (c : Collab) (t : Token) (rest : List Token)
    (ds : List Diag) (ec : Nat) :
    (ParseIfStatement lang c ⟨t :: rest, ds, ec⟩).toks.length ≤ rest.length := by
  by_cases hp : curKind (⟨rest, ds, ec⟩ : PState) = TokKind.l_paren
  · have hpp := ParseParenExpression_toks_length_le c (⟨rest, ds, ec⟩ : PState)
    have h5 := ParseStatement_toks_le lang c (ParseParenExpression c ⟨rest, ds, ec⟩)
    simp only [PState.toks] at hpp
    by_cases he : curKind (ParseStatement lang c
        (ParseParenExpression c ⟨rest, ds, ec⟩)) = TokKind.kw_else
    · have hct := consumeToken_toks_length
        (ParseStatement lang c (ParseParenExpression c ⟨rest, ds, ec⟩))
      have hlt : (consumeToken (ParseStatement lang c
          (ParseParenExpression c ⟨rest, ds, ec⟩))).toks.length < rest.length + 1 := by
        omega
      rw [PIf_else_guard lang c t rest ds ec hp he hlt]
      have h5b := ParseStatement_toks_le lang c (consumeToken
        (ParseStatement lang c (ParseParenExpression c ⟨rest, ds, ec⟩)))
      omega
    · rw [PIf_noelse lang c t rest ds ec hp he]
      omega
  · rw [PIf_noparen lang c t rest ds ec hp]
    have h := SkipUntil_diagTok_toks_le TokKind.semi (⟨rest, ds, ec⟩ : PState)
      (DiagKind.err_expected_lparen_after "if")
    simpa using h

theorem ParseSwitch_cons_le (lang : LangOptions) (c : Collab) (t : Token)
    (rest : List Token) (ds : List Diag) (ec : Nat) :
    (ParseSwitchStatement lang c ⟨t :: rest, ds, ec⟩).toks.length ≤ rest.length := by
  by_cases hp : curKind (⟨rest, ds, ec⟩ : PState) = TokKind.l_paren
  · rw [PSwitch_main lang c t rest ds ec hp]
    have hpp := ParseParenExpression_toks_length_le c (⟨rest, ds, ec⟩ : PState)
    have h5 := ParseStatement_toks_le lang c (ParseParenExpression c ⟨rest, ds, ec⟩)
    simp only [PState.toks] at hpp
    omega
  · rw [PSwitch_noparen lang c t rest ds ec hp]
    have h := SkipUntil_diagTok_toks_le TokKind.semi (⟨rest, ds, ec⟩ : PState)
      (DiagKind.err_expected_lparen_after "switch")
    simpa using h

theorem ParseWhile_cons_le (lang : LangOptions) (c : Collab) (t : Token)
    (rest : List Token) (ds : List Diag) (ec : Nat) :
    (ParseWhileStatement lang c ⟨t :: rest, ds, ec⟩).toks.length ≤ rest.length := by
  by_cases hp : curKind (⟨rest, ds, ec⟩ : PState) = TokKind.l_paren
  · rw [PWhile_main lang c t rest ds ec hp]
    have hpp := ParseParenExpression_toks_length_le c (⟨rest, ds, ec⟩ : PState)
    have h5 := ParseStatement_toks_le lang c (ParseParenExpression c ⟨rest, ds, ec⟩)
    simp only [PState.toks] at hpp
    omega
  · rw [PWhile_noparen lang c t rest ds ec hp]
    have h := SkipUntil_diagTok_toks_le TokKind.semi (⟨rest, ds, ec⟩ : PState)
      (DiagKind.err_expected_lparen_after "while")
    simpa using h

theorem ParseDo_cons_le (lang : LangOptions) (c : Collab) (t : Token)
    (rest : List Token) (ds : List Diag) (ec : Nat) :
    (ParseDoStatement lang c ⟨t :: rest, ds, ec⟩).toks.length ≤ rest.length := by
  have h5 := ParseStatement_toks_le lang c (⟨rest, ds, ec⟩ : PState)
  simp only [PState.toks] at h5
  by_cases hw : curKind (ParseStatement lang c ⟨rest, ds, ec⟩) = TokKind.kw_while
  · have hct := consumeToken_toks_length (ParseStatement lang c ⟨rest, ds, ec⟩)
    by_cases hp : curKind (consumeToken
        (ParseStatement lang c ⟨rest, ds, ec⟩)) = TokKind.l_paren
    · rw [PDo_ok lang c t rest ds ec hw hp]
      have hpp := ParseParenExpression_toks_length_le c
        (consumeToken (ParseStatement lang c ⟨rest, ds, ec⟩))
      omega
    · rw [PDo_noparen lang c t rest ds ec hw hp]
      have h := SkipUntil_diagTok_toks_le TokKind.semi
        (consumeToken (ParseStatement lang c ⟨rest, ds, ec⟩))
        (DiagKind.err_expected_lparen_after "do/while")
      omega
  · rw [PDo_nowhile lang c t rest ds ec hw]
    have h := SkipUntil_two_diag_toks_le TokKind.semi
      (ParseStatement lang c ⟨rest, ds, ec⟩) DiagKind.err_expected_while
      t.loc DiagKind.err_matching
    omega

theorem ParseFor_cons_le (lang : LangOptions) (c : Collab) (t : Token)
    (rest : List Token) (ds : List Diag) (ec : Nat) :
    (ParseForStatement lang c ⟨t :: rest, ds, ec⟩).toks.length ≤ rest.length := by
  by_cases hp : curKind (⟨rest, ds, ec⟩ : PState) = TokKind.l_paren
  · have hc1 := consumeToken_toks_length (⟨rest, ds, ec⟩ : PState)
    simp only [PState.toks] at hc1
    by_cases hs : curKind (consumeToken ⟨rest, ds, ec⟩) = TokKind.semi
    · rw [PFor_firstsemi lang c t rest ds ec hp hs]
      have h2 := forSecondPart_toks_le lang c t.loc (curLoc ⟨rest, ds, ec⟩)
        (consumeToken (consumeToken ⟨rest, ds, ec⟩))
      have hc2 := consumeToken_toks_length (consumeToken (⟨rest, ds, ec⟩ : PState))
      omega
    · by_cases hd : c.isDeclarationSpecifier (consumeToken ⟨rest, ds, ec⟩).toks = true
      · rw [PFor_decl lang c t rest ds ec hp hs hd]
        have h2 := forSecondPart_toks_le lang c t.loc (curLoc ⟨rest, ds, ec⟩)
          (ParseDeclaration c (if lang.C99 = false
            then diagTok (consumeToken ⟨rest, ds, ec⟩) .ext_c99_variable_decl_in_for_loop
            else consumeToken ⟨rest, ds, ec⟩))
        have h3 := ParseDeclaration_toks_length_le c (if lang.C99 = false
            then diagTok (consumeToken ⟨rest, ds, ec⟩) .ext_c99_variable_decl_in_for_loop
            else consumeToken ⟨rest, ds, ec⟩)
        have h4 : (if lang.C99 = false
            then diagTok (consumeToken (⟨rest, ds, ec⟩ : PState))
              DiagKind.ext_c99_variable_decl_in_for_loop
            else consumeToken (⟨rest, ds, ec⟩ : PState)).toks.length
            = (consumeToken (⟨rest, ds, ec⟩ : PState)).toks.length := by
          split <;> simp [diagTok, addDiag]
        omega
      · have hd2 : c.isDeclarationSpecifier (consumeToken ⟨rest, ds, ec⟩).toks = false := by
          simpa using hd
        have hpe := ParseExpression_toks_length_le c (consumeToken (⟨rest, ds, ec⟩ : PState))
        by_cases hes : curKind (ParseExpression c
            (consumeToken ⟨rest, ds, ec⟩)) = TokKind.semi
        · rw [PFor_expr_semi lang c t rest ds ec hp hs hd2 hes]
          have h2 := forSecondPart_toks_le lang c t.loc (curLoc ⟨rest, ds, ec⟩)
            (consumeToken (ParseExpression c (consumeToken ⟨rest, ds, ec⟩)))
          have hc2 := consumeToken_toks_length
            (ParseExpression c (consumeToken (⟨rest, ds, ec⟩ : PState)))
          omega
        · rw [PFor_expr_nosemi lang c t rest ds ec hp hs hd2 hes]
          have h2 := forSecondPart_toks_le lang c t.loc (curLoc ⟨rest, ds, ec⟩)
            (SkipUntil .semi (addDiag (diagTok (ParseExpression c
              (consumeToken ⟨rest, ds, ec⟩)) .err_expected_semi_for) t.loc .err_matching))
          have h3 := SkipUntil_two_diag_toks_le TokKind.semi
            (ParseExpression c (consumeToken ⟨rest, ds, ec⟩))
            DiagKind.err_expected_semi_for t.loc DiagKind.err_matching
          omega
  · rw [PFor_noparen lang c t rest ds ec hp]
    have h := SkipUntil_diagTok_toks_le TokKind.semi (⟨rest, ds, ec⟩ : PState)
      (DiagKind.err_expected_lparen_after "for")
    simpa using h

theorem ParseGoto_cons_le (lang : LangOptions) (c : Collab) (t : Token)
    (rest : List Token) (ds : List Diag) (ec : Nat) :
    (ParseGotoStatement lang c ⟨t :: rest, ds, ec⟩).toks.length ≤ rest.length := by
  simp only [ParseGotoStatement]
  split
  · simp [consumeToken]
  · split
    · refine le_trans (ParseExpression_toks_length_le _ _) ?_
      simp [consumeToken, diagTok, addDiag]
    · simp

theorem ParseReturn_cons_le (c : Collab) (t : Token)
    (rest : List Token) (ds : List Diag) (ec : Nat) :
    (ParseReturnStatement c ⟨t :: rest, ds, ec⟩).toks.length ≤ rest.length := by
  simp only [ParseReturnStatement]
  split
  · refine le_trans (ParseExpression_toks_length_le _ _) ?_
    simp
  · simp

theorem ParseCompound_cons_le (lang : LangOptions) (c : Collab) (t : Token)
    (rest : List Token) (ds : List Diag) (ec : Nat) :
    (ParseCompoundStatement lang c ⟨t :: rest, ds, ec⟩).toks.length ≤ rest.length := by
  rw [PCS_cons lang c ⟨t :: rest, ds, ec⟩ t rest rfl]
  have h := compoundBody_toks_le lang c (⟨rest, ds, ec⟩ : PState)
  simpa using h

/-- Progress: whenever the current token is not `eof`, the statement
dispatcher consumes at least one token.  This is the fact that makes the
compound-statement loop of the source terminate. -/
theorem PSoD_progress (lang : LangOptions) (c : Collab) (b : Bool) (s : PState)
    (h : curKind s ≠ .eof) :
    (ParseStatementOrDeclaration lang c b s).toks.length < s.toks.length := by
  obtain ⟨tks, sds, sec⟩ := s
  cases tks with
  | nil => simp [curKind] at h
  | cons t rest =>
    have hk : curKind (⟨t :: rest, sds, sec⟩ : PState) = t.kind := rfl
    show _ < rest.length + 1
    cases ht : t.kind
    case l_brace =>
      rw [PSoD_l_brace lang c b _ (by rw [hk, ht])]
      have h1 := ParseCompound_cons_le lang c t rest sds sec
      omega
    case semi =>
      rw [PSoD_semi lang c b _ (by rw [hk, ht])]
      simp [consumeToken]
    case kw_if =>
      rw [PSoD_kw_if lang c b _ (by rw [hk, ht])]
      have h1 := ParseIf_cons_le lang c t rest sds sec
      omega
    case kw_switch =>
      rw [PSoD_kw_switch lang c b _ (by rw [hk, ht])]
      have h1 := ParseSwitch_cons_le lang c t rest sds sec
      omega
    case kw_while =>
      rw [PSoD_kw_while lang c b _ (by rw [hk, ht])]
      have h1 := ParseWhile_cons_le lang c t rest sds sec
      omega
    case kw_do =>
      rw [PSoD_kw_do lang c b _ (by rw [hk, ht])]
      have h1 := finishSemi_toks_length_le
        (ParseDoStatement lang c ⟨t :: rest, sds, sec⟩) "do/while loop"
      have h2 := ParseDo_cons_le lang c t rest sds sec
      omega
    case kw_for =>
      rw [PSoD_kw_for lang c b _ (by rw [hk, ht])]
      have h1 := ParseFor_cons_le lang c t rest sds sec
      omega
    case kw_goto =>
      rw [PSoD_kw_goto lang c b _ (by rw [hk, ht])]
      have h1 := finishSemi_toks_length_le
        (ParseGotoStatement lang c ⟨t :: rest, sds, sec⟩) "goto statement"
      have h2 := ParseGoto_cons_le lang c t rest sds sec
      omega
    case kw_continue =>
      rw [PSoD_kw_continue lang c b _ (by rw [hk, ht])]
      have h1 := finishSemi_toks_length_le
        (consumeToken ⟨t :: rest, sds, sec⟩) "continue statement"
      have h2 := consumeToken_toks_length (⟨t :: rest, sds, sec⟩ : PState)
      simp only [PState.toks, List.length_cons] at h2
      omega
    case kw_break =>
      rw [PSoD_kw_break lang c b _ (by rw [hk, ht])]
      have h1 := finishSemi_toks_length_le
        (consumeToken ⟨t :: rest, sds, sec⟩) "break statement"
      have h2 := consumeToken_toks_length (⟨t :: rest, sds, sec⟩ : PState)
      simp only [PState.toks, List.length_cons] at h2
      omega
    case kw_return =>
      rw [PSoD_kw_return lang c b _ (by rw [hk, ht])]
      have h1 := finishSemi_toks_length_le
        (ParseReturnStatement c ⟨t :: rest, sds, sec⟩) "return statement"
      have h2 := ParseReturn_cons_le c t rest sds sec
      omega
    case eof => exact absurd (hk.trans ht) h
    all_goals
      rw [PSoD_default lang c b _ (by rw [hk, ht]; decide) (by rw [hk, ht]; decide)
        (by rw [hk, ht]; decide) (by rw [hk, ht]; decide) (by rw [hk, ht]; decide)
        (by rw [hk, ht]; decide) (by rw [hk, ht]; decide) (by rw [hk, ht]; decide)
        (by rw [hk, ht]; decide) (by rw [hk, ht]; decide) (by rw [hk, ht]; decide)]
    all_goals
      have h1 := skipToks_cons_le TokKind.semi t rest (by rw [ht]; decide)
    all_goals
      simp [SkipUntil, diagTok, addDiag]
    all_goals omega

/-- The compound-statement loop unfolding in its clean form: the defensive
progress test in the embedding is always true, by `PSoD_progress`. -/
theorem compoundBody_step (lang : LangOptions) (c : Collab) (s : PState)
    (h1 : curKind s ≠ .r_brace) (h2 : curKind s ≠ .eof) :
    compoundBody lang c s
      = compoundBody lang c (ParseStatementOrDeclaration lang c false s) :=
  compoundBody_step_guard lang c s ⟨h1, h2⟩ (PSoD_progress lang c false s h2)

/-- The else-branch unfolding of `ParseIfStatement` in its clean form: the
defensive length test in the embedding is always true, by the length bounds. -/
theorem PIf_else (lang : LangOptions) (c : Collab) (t : Token) (rest : List Token)
    (ds : List Diag) (ec : Nat) (hp : curKind ⟨rest, ds, ec⟩ = .l_paren)
    (he : curKind (ParseStatement lang c (ParseParenExpression c ⟨rest, ds, ec⟩))
      = .kw_else) :
    ParseIfStatement lang c ⟨t :: rest, ds, ec⟩
      = ParseStatement lang c (consumeToken (ParseStatement lang c
          (ParseParenExpression c ⟨rest, ds, ec⟩))) := by
  refine PIf_else_guard lang c t rest ds ec hp he ?_
  have hpp := ParseParenExpression_toks_length_le c (⟨rest, ds, ec⟩ : PState)
  have h5 := ParseStatement_toks_le lang c (ParseParenExpression c ⟨rest, ds, ec⟩)
  have hct := consumeToken_toks_length
    (ParseStatement lang c (ParseParenExpression c ⟨rest, ds, ec⟩))
  simp only [PState.toks] at hpp
  omega

theorem forClauseSemi_eq (c : Collab) (FL : Nat) (s : PState) :
    forClauseSemi c FL s = forSemiCheck FL (optExpr c .semi s) := rfl

theorem forSemiCheck_semi (FL : Nat) (s : PState) (h : curKind s = .semi) :
    forSemiCheck FL s = consumeToken s := by
  unfold forSemiCheck
  rw [if_pos h]

theorem forSemiCheck_nosemi (FL : Nat) (s : PState) (h : curKind s ≠ .semi) :
    forSemiCheck FL s
      = SkipUntil .semi (addDiag (diagTok s .err_expected_semi_for) FL .err_matching) := by
  unfold forSemiCheck
  rw [if_neg h]

/-! The claim theorems. -/

/-- **C1** (code-bug evidence): contrary to the dispatcher's own grammar
comment (which lists `labeled-statement` and `expression-statement` among the
alternatives it reads, with no TODO marker), the switch has no case for an
identifier, `case`, `default`, or an expression start.  On the well-formed
labeled statements `L : ;`, `case E : ;`, `default : ;` and the well-formed
non-empty expression statement `E ;` it emits
`err_expected_statement_declaration` and invokes skip-to-semicolon recovery
instead of consuming the construct with zero diagnostics. -/
theorem C1_labeled_and_expression_statements_rejected :
    (ParseStatementOrDeclaration defaultLang trivialCollab false
        ⟨[⟨.identifier, 0⟩, ⟨.colon, 1⟩, ⟨.semi, 2⟩], [], 0⟩).diags
      = [⟨0, .err_expected_statement_declaration⟩]
    ∧ (ParseStatementOrDeclaration defaultLang trivialCollab false
        ⟨[⟨.kw_case, 0⟩, ⟨.other, 1⟩, ⟨.colon, 2⟩, ⟨.semi, 3⟩], [], 0⟩).diags
      = [⟨0, .err_expected_statement_declaration⟩]
    ∧ (ParseStatementOrDeclaration defaultLang trivialCollab false
        ⟨[⟨.kw_default, 0⟩, ⟨.colon, 1⟩, ⟨.semi, 2⟩], [], 0⟩).diags
      = [⟨0, .err_expected_statement_declaration⟩]
    ∧ (ParseStatementOrDeclaration defaultLang trivialCollab false
        ⟨[⟨.other, 0⟩, ⟨.semi, 1⟩], [], 0⟩).diags
      = [⟨0, .err_expected_statement_declaration⟩] := by
  refine ⟨?_, ?_, ?_, ?_⟩ <;>
    simp [ParseStatementOrDeclaration, SkipUntil, skipToks, diagTok, addDiag,
      curKind, curLoc]

/-- **C2**: the dispatcher routes `do`, `goto`, `continue`, `break`, `return`
through the shared semicolon-enforcement tail with the matching
statement-kind label, and that tail consumes a present semicolon or else
emits exactly one `err_expected_semi_after` diagnostic with that label and
invokes skip-to-semicolon recovery. -/
theorem C2_shared_semicolon_enforcement (lang : LangOptions) (c : Collab) (b : Bool)
    (s u : PState) (lbl : String) :
    (curKind s = .kw_do →
      ParseStatementOrDeclaration lang c b s
        = finishSemi (ParseDoStatement lang c s) "do/while loop")
    ∧ (curKind s = .kw_goto →
      ParseStatementOrDeclaration lang c b s
        = finishSemi (ParseGotoStatement lang c s) "goto statement")
    ∧ (curKind s = .kw_continue →
      ParseStatementOrDeclaration lang c b s
        = finishSemi (consumeToken s) "continue statement")
    ∧ (curKind s = .kw_break →
      ParseStatementOrDeclaration lang c b s
        = finishSemi (consumeToken s) "break statement")
    ∧ (curKind s = .kw_return →
      ParseStatementOrDeclaration lang c b s
        = finishSemi (ParseReturnStatement c s) "return statement")
    ∧ (curKind u = .semi → finishSemi u lbl = consumeToken u)
    ∧ (curKind u ≠ .semi →
        finishSemi u lbl = SkipUntil .semi (diagTok u (.err_expected_semi_after lbl))
        ∧ (finishSemi u lbl).diags
          = u.diags ++ [⟨curLoc u, .err_expected_semi_after lbl⟩]) := by
  refine ⟨?_, ?_, ?_, ?_, ?_, ?_, ?_⟩
  · exact fun h => PSoD_kw_do lang c b s h
  · exact fun h => PSoD_kw_goto lang c b s h
  · exact fun h => PSoD_kw_continue lang c b s h
  · exact fun h => PSoD_kw_break lang c b s h
  · exact fun h => PSoD_kw_return lang c b s h
  · exact fun h => finishSemi_semi u lbl h
  · intro h
    refine ⟨finishSemi_nosemi u lbl h, ?_⟩
    rw [finishSemi_nosemi u lbl h]
    simp [SkipUntil, diagTok, addDiag]

theorem C2_shared_semicolon_enforcement_witness :
    (ParseStatementOrDeclaration defaultLang trivialCollab false
        ⟨[⟨.kw_break, 0⟩, ⟨.semi, 1⟩], [], 0⟩
      = finishSemi (consumeToken ⟨[⟨.kw_break, 0⟩, ⟨.semi, 1⟩], [], 0⟩) "break statement")
    ∧ finishSemi ⟨[⟨.semi, 1⟩], [], 0⟩ "break statement"
      = consumeToken ⟨[⟨.semi, 1⟩], [], 0⟩
    ∧ (finishSemi ⟨[⟨.other, 1⟩], [], 0⟩ "return statement").diags
      = [⟨1, .err_expected_semi_after "return statement"⟩] := by
  refine ⟨?_, ?_, ?_⟩
  · exact (C2_shared_semicolon_enforcement defaultLang trivialCollab false
      ⟨[⟨.kw_break, 0⟩, ⟨.semi, 1⟩], [], 0⟩ ⟨[], [], 0⟩ "x").2.2.2.1 (by decide)
  · exact (C2_shared_semicolon_enforcement defaultLang trivialCollab false
      ⟨[], [], 0⟩ ⟨[⟨.semi, 1⟩], [], 0⟩ "break statement").2.2.2.2.2.1 (by decide)
  · have h := ((C2_shared_semicolon_enforcement defaultLang trivialCollab false
      ⟨[], [], 0⟩ ⟨[⟨.other, 1⟩], [], 0⟩ "return statement").2.2.2.2.2.2 (by decide)).2
    rw [h]
    decide

/-- **C3**: given the current token is `{`, the compound-statement parser
consumes it and runs the block-item loop; the loop consumes a `}` when it
reaches one, emits exactly one `err_expected_rbrace` diagnostic and leaves
the stream unchanged (at end-of-input) when it reaches `eof`, and otherwise
invokes the statement dispatcher and continues. -/
theorem C3_compound_statement_contract (lang : LangOptions) (c : Collab) (s : PState)
    (h : curKind s = .l_brace) :
    ParseCompoundStatement lang c s = compoundBody lang c (consumeToken s)
    ∧ (∀ u : PState, curKind u = .r_brace → compoundBody lang c u = consumeToken u)
    ∧ (∀ u : PState, curKind u = .eof →
        compoundBody lang c u = diagTok u .err_expected_rbrace
        ∧ (compoundBody lang c u).toks = u.toks
        ∧ (compoundBody lang c u).diags = u.diags ++ [⟨curLoc u, .err_expected_rbrace⟩])
    ∧ (∀ u : PState, curKind u ≠ .r_brace → curKind u ≠ .eof →
        compoundBody lang c u
          = compoundBody lang c (ParseStatementOrDeclaration lang c false u)) := by
  refine ⟨?_, ?_, ?_, ?_⟩
  · obtain ⟨tks, ds, ec⟩ := s
    cases tks with
    | nil => simp [curKind] at h
    | cons t rest => exact PCS_cons lang c ⟨t :: rest, ds, ec⟩ t rest rfl
  · exact fun u hu => compoundBody_rbrace lang c u hu
  · intro u hu
    refine ⟨compoundBody_eof lang c u hu, ?_, ?_⟩
    · rw [compoundBody_eof lang c u hu]
      rfl
    · rw [compoundBody_eof lang c u hu]
      rfl
  · exact fun u h1 h2 => compoundBody_step lang c u h1 h2

theorem C3_compound_statement_contract_witness :
    curKind (⟨[⟨.l_brace, 0⟩, ⟨.r_brace, 1⟩], [], 0⟩ : PState) = .l_brace
    ∧ ParseCompoundStatement defaultLang trivialCollab
        ⟨[⟨.l_brace, 0⟩, ⟨.r_brace, 1⟩], [], 0⟩
      = compoundBody defaultLang trivialCollab
          (consumeToken ⟨[⟨.l_brace, 0⟩, ⟨.r_brace, 1⟩], [], 0⟩) :=
  ⟨by decide, (C3_compound_statement_contract defaultLang trivialCollab
    ⟨[⟨.l_brace, 0⟩, ⟨.r_brace, 1⟩], [], 0⟩ (by decide)).1⟩

/-- **C4**: the do-routine eats `do` (remembering its location `t.loc`),
parses one body statement, and on a missing `while` emits
`err_expected_while` at the current token plus `err_matching` at the
remembered `do` location, runs skip-to-semicolon recovery and returns; on the
success path it ends with the parenthesized-condition collaborator and the
routine itself consumes nothing further, so the trailing semicolon is left
to the caller. -/
theorem C4_do_statement (lang : LangOptions) (c : Collab) (t : Token)
    (rest : List Token) (ds : List Diag) (ec : Nat) :
    (curKind (ParseStatement lang c ⟨rest, ds, ec⟩) ≠ .kw_while →
      ParseDoStatement lang c ⟨t :: rest, ds, ec⟩
        = SkipUntil .semi (addDiag (diagTok (ParseStatement lang c ⟨rest, ds, ec⟩)
            .err_expected_while) t.loc .err_matching)
      ∧ (ParseDoStatement lang c ⟨t :: rest, ds, ec⟩).diags
        = (ParseStatement lang c ⟨rest, ds, ec⟩).diags
          ++ [⟨curLoc (ParseStatement lang c ⟨rest, ds, ec⟩), .err_expected_while⟩,
              ⟨t.loc, .err_matching⟩])
    ∧ (curKind (ParseStatement lang c ⟨rest, ds, ec⟩) = .kw_while →
       curKind (consumeToken (ParseStatement lang c ⟨rest, ds, ec⟩)) = .l_paren →
      ParseDoStatement lang c ⟨t :: rest, ds, ec⟩
        = ParseParenExpression c (consumeToken (ParseStatement lang c ⟨rest, ds, ec⟩))) := by
  constructor
  · intro hw
    refine ⟨PDo_nowhile lang c t rest ds ec hw, ?_⟩
    rw [PDo_nowhile lang c t rest ds ec hw]
    simp [SkipUntil, diagTok, addDiag]
  · exact fun hw hp => PDo_ok lang c t rest ds ec hw hp

theorem C4_do_statement_witness :
    curKind (ParseStatement defaultLang trivialCollab
        ⟨[⟨.semi, 1⟩, ⟨.other, 2⟩], [], 0⟩) ≠ .kw_while
    ∧ (ParseDoStatement defaultLang trivialCollab
        ⟨[⟨.kw_do, 0⟩, ⟨.semi, 1⟩, ⟨.other, 2⟩], [], 0⟩).diags
      = [⟨2, .err_expected_while⟩, ⟨0, .err_matching⟩] := by
  have hw : curKind (ParseStatement defaultLang trivialCollab
      ⟨[⟨.semi, 1⟩, ⟨.other, 2⟩], [], 0⟩) ≠ TokKind.kw_while := by
    simp [ParseStatement, ParseStatementOrDeclaration, curKind, consumeToken]
  refine ⟨hw, ?_⟩
  have h := ((C4_do_statement defaultLang trivialCollab ⟨.kw_do, 0⟩
    [⟨.semi, 1⟩, ⟨.other, 2⟩] [] 0).1 hw).2
  rw [h]
  simp [ParseStatement, ParseStatementOrDeclaration, curKind, curLoc, consumeToken]

/-- **C5**: on `for (;;)` followed by anything, the for-routine (dispatched
directly, with no trailing-semicolon enforcement) consumes exactly the five
tokens `for ( ; ; )` — all three clauses empty — without invoking the
Expression Parser (`exprCalls` unchanged) and without emitting diagnostics
(`diags` unchanged), and then parses exactly one body statement on the rest. -/
theorem C5_for_empty_clauses (lang : LangOptions) (c : Collab) (b : Bool)
    (a p q r v : Nat) (rest : List Token) (ds : List Diag) (ec : Nat) :
    ParseStatementOrDeclaration lang c b
        ⟨⟨.kw_for, a⟩ :: ⟨.l_paren, p⟩ :: ⟨.semi, q⟩ :: ⟨.semi, r⟩ :: ⟨.r_paren, v⟩
          :: rest, ds, ec⟩
      = ParseForStatement lang c
        ⟨⟨.kw_for, a⟩ :: ⟨.l_paren, p⟩ :: ⟨.semi, q⟩ :: ⟨.semi, r⟩ :: ⟨.r_paren, v⟩
          :: rest, ds, ec⟩
    ∧ ParseForStatement lang c
        ⟨⟨.kw_for, a⟩ :: ⟨.l_paren, p⟩ :: ⟨.semi, q⟩ :: ⟨.semi, r⟩ :: ⟨.r_paren, v⟩
          :: rest, ds, ec⟩
      = ParseStatement lang c ⟨rest, ds, ec⟩ := by
  constructor
  · exact PSoD_kw_for lang c b _ rfl
  · simp [ParseForStatement, forSecondPart, forThirdPart, forClauseSemi, forSemiCheck,
      optExpr, curKind, curLoc, consumeToken]

/-- **C6**: after eating `goto`, the routine consumes an identifier label and
nothing more; on `*` with extensions enabled it emits exactly one
`ext_gnu_indirect_goto` advisory, eats the `*`, and delegates to the
Expression Parser; on `*` with extensions disabled it consumes nothing
further and emits no diagnostic, leaving the `*` as the current token. -/
theorem C6_goto_statement (lang : LangOptions) (c : Collab) (t : Token)
    (rest : List Token) (ds : List Diag) (ec : Nat) :
    (curKind ⟨rest, ds, ec⟩ = .identifier →
      ParseGotoStatement lang c ⟨t :: rest, ds, ec⟩ = consumeToken ⟨rest, ds, ec⟩)
    ∧ (curKind ⟨rest, ds, ec⟩ = .star → lang.NoExtensions = false →
      ParseGotoStatement lang c ⟨t :: rest, ds, ec⟩
        = ParseExpression c (consumeToken (diagTok ⟨rest, ds, ec⟩ .ext_gnu_indirect_goto))
      ∧ (ParseGotoStatement lang c ⟨t :: rest, ds, ec⟩).diags
        = ds ++ [⟨curLoc ⟨rest, ds, ec⟩, .ext_gnu_indirect_goto⟩])
    ∧ (curKind ⟨rest, ds, ec⟩ = .star → lang.NoExtensions = true →
      ParseGotoStatement lang c ⟨t :: rest, ds, ec⟩ = ⟨rest, ds, ec⟩) := by
  refine ⟨?_, ?_, ?_⟩
  · exact fun hi => PGoto_id lang c t rest ds ec hi
  · intro hs hx
    have hi : curKind (⟨rest, ds, ec⟩ : PState) ≠ TokKind.identifier := by
      rw [hs]
      decide
    refine ⟨PGoto_star lang c t rest ds ec hi hs hx, ?_⟩
    rw [PGoto_star lang c t rest ds ec hi hs hx]
    simp [ParseExpression, consumeToken, diagTok, addDiag]
  · intro hs hx
    have hi : curKind (⟨rest, ds, ec⟩ : PState) ≠ TokKind.identifier := by
      rw [hs]
      decide
    refine PGoto_other lang c t rest ds ec hi ?_
    rintro ⟨h1, h2⟩
    rw [hx] at h2
    exact absurd h2 (by decide)

theorem C6_goto_statement_witness :
    ParseGotoStatement defaultLang trivialCollab
        ⟨[⟨.kw_goto, 0⟩, ⟨.identifier, 1⟩, ⟨.semi, 2⟩], [], 0⟩
      = consumeToken ⟨[⟨.identifier, 1⟩, ⟨.semi, 2⟩], [], 0⟩
    ∧ (ParseGotoStatement defaultLang trivialCollab
        ⟨[⟨.kw_goto, 0⟩, ⟨.star, 1⟩, ⟨.semi, 2⟩], [], 0⟩).diags
      = [⟨1, .ext_gnu_indirect_goto⟩]
    ∧ ParseGotoStatement ⟨true, true⟩ trivialCollab
        ⟨[⟨.kw_goto, 0⟩, ⟨.star, 1⟩, ⟨.semi, 2⟩], [], 0⟩
      = ⟨[⟨.star, 1⟩, ⟨.semi, 2⟩], [], 0⟩ := by
  refine ⟨?_, ?_, ?_⟩
  · exact (C6_goto_statement defaultLang trivialCollab ⟨.kw_goto, 0⟩
      [⟨.identifier, 1⟩, ⟨.semi, 2⟩] [] 0).1 (by decide)
  · have h := ((C6_goto_statement defaultLang trivialCollab ⟨.kw_goto, 0⟩
      [⟨.star, 1⟩, ⟨.semi, 2⟩] [] 0).2.1 (by decide) (by decide)).2
    rw [h]
    decide
  · exact (C6_goto_statement ⟨true, true⟩ trivialCollab ⟨.kw_goto, 0⟩
      [⟨.star, 1⟩, ⟨.semi, 2⟩] [] 0).2.2 (by decide) (by decide)

/-- **C7**: every routine of the component is a total function of the input
stream (the embedding's definitions are accepted by well-founded recursion,
with the collaborators arbitrary terminating consumption functions), and
this theorem certifies the bounds behind that termination: every routine
consumes at most the remaining stream, and the dispatcher strictly consumes
at least one token whenever the current token is not `eof` — the progress
fact that makes the compound-statement loop of the source terminate.  No
other abort path exists: every routine returns a state. -/
theorem C7_all_routines_return (lang : LangOptions) (c : Collab) (b : Bool)
    (s : PState) (FL LP : Nat) :
    (ParseStatementOrDeclaration lang c b s).toks.length ≤ s.toks.length
    ∧ (curKind s ≠ .eof →
        (ParseStatementOrDeclaration lang c b s).toks.length < s.toks.length)
    ∧ (ParseCompoundStatement lang c s).toks.length ≤ s.toks.length
    ∧ (compoundBody lang c s).toks.length ≤ s.toks.length
    ∧ (ParseStatement lang c s).toks.length ≤ s.toks.length
    ∧ (ParseIfStatement lang c s).toks.length ≤ s.toks.length
    ∧ (ParseSwitchStatement lang c s).toks.length ≤ s.toks.length
    ∧ (ParseWhileStatement lang c s).toks.length ≤ s.toks.length
    ∧ (ParseDoStatement lang c s).toks.length ≤ s.toks.length
    ∧ (ParseForStatement lang c s).toks.length ≤ s.toks.length
    ∧ (forSecondPart lang c FL LP s).toks.length ≤ s.toks.length
    ∧ (forThirdPart lang c FL LP s).toks.length ≤ s.toks.length
    ∧ (ParseGotoStatement lang c s).toks.length ≤ s.toks.length
    ∧ (ParseReturnStatement c s).toks.length ≤ s.toks.length :=
  ⟨PSoD_toks_le lang c b s, fun h => PSoD_progress lang c b s h,
    ParseCompound_toks_le lang c s, compoundBody_toks_le lang c s,
    ParseStatement_toks_le lang c s, ParseIf_toks_le lang c s,
    ParseSwitch_toks_le lang c s, ParseWhile_toks_le lang c s,
    ParseDo_toks_le lang c s, ParseFor_toks_le lang c s,
    forSecondPart_toks_le lang c FL LP s, forThirdPart_toks_le lang c FL LP s,
    ParseGotoStatement_toks_length_le lang c s, ParseReturnStatement_toks_length_le c s⟩

theorem C7_all_routines_return_witness :
    curKind (⟨[⟨.semi, 0⟩], [], 0⟩ : PState) ≠ .eof
    ∧ (ParseStatementOrDeclaration defaultLang trivialCollab true
        ⟨[⟨.semi, 0⟩], [], 0⟩).toks.length
      < (⟨[⟨.semi, 0⟩], [], 0⟩ : PState).toks.length :=
  ⟨by decide, (C7_all_routines_return defaultLang trivialCollab true
    ⟨[⟨.semi, 0⟩], [], 0⟩ 0 0).2.1 (by decide)⟩

/-- **C8**: even when the do-routine exits through one of its own
error-recovery paths (missing `while`, or missing `(` after `do/while`, each
followed by skip-to-semicolon recovery), the dispatcher still runs the
shared semicolon-enforcement tail on the resulting state, so if the token
the recovery lands on is not a semicolon, one more
`err_expected_semi_after "do/while loop"` diagnostic is emitted and a second
skip-to-semicolon recovery runs. -/
theorem C8_do_error_paths_still_enforce_semi (lang : LangOptions) (c : Collab)
    (b : Bool) (t : Token) (rest : List Token) (ds : List Diag) (ec : Nat) :
    (curKind (⟨t :: rest, ds, ec⟩ : PState) = .kw_do →
      ParseStatementOrDeclaration lang c b ⟨t :: rest, ds, ec⟩
        = finishSemi (ParseDoStatement lang c ⟨t :: rest, ds, ec⟩) "do/while loop")
    ∧ (curKind (ParseStatement lang c ⟨rest, ds, ec⟩) ≠ .kw_while →
        ParseDoStatement lang c ⟨t :: rest, ds, ec⟩
          = SkipUntil .semi (addDiag (diagTok (ParseStatement lang c ⟨rest, ds, ec⟩)
              .err_expected_while) t.loc .err_matching))
    ∧ (curKind (ParseStatement lang c ⟨rest, ds, ec⟩) = .kw_while →
       curKind (consumeToken (ParseStatement lang c ⟨rest, ds, ec⟩)) ≠ .l_paren →
        ParseDoStatement lang c ⟨t :: rest, ds, ec⟩
          = SkipUntil .semi (diagTok (consumeToken (ParseStatement lang c ⟨rest, ds, ec⟩))
              (.err_expected_lparen_after "do/while")))
    ∧ (∀ u : PState, curKind u ≠ .semi →
        finishSemi u "do/while loop"
          = SkipUntil .semi (diagTok u (.err_expected_semi_after "do/while loop"))
        ∧ (finishSemi u "do/while loop").diags
          = u.diags ++ [⟨curLoc u, .err_expected_semi_after "do/while loop"⟩]) := by
  refine ⟨?_, ?_, ?_, ?_⟩
  · exact fun h => PSoD_kw_do lang c b _ h
  · exact fun hw => PDo_nowhile lang c t rest ds ec hw
  · exact fun hw hp => PDo_noparen lang c t rest ds ec hw hp
  · intro u h
    refine ⟨finishSemi_nosemi u "do/while loop" h, ?_⟩
    rw [finishSemi_nosemi u "do/while loop" h]
    simp [SkipUntil, diagTok, addDiag]

theorem C8_do_error_paths_still_enforce_semi_witness :
    (ParseStatementOrDeclaration defaultLang trivialCollab false
        ⟨[⟨.kw_do, 0⟩, ⟨.semi, 1⟩, ⟨.semi, 2⟩, ⟨.other, 3⟩], [], 0⟩).diags
      = [⟨2, .err_expected_while⟩, ⟨0, .err_matching⟩,
         ⟨3, .err_expected_semi_after "do/while loop"⟩] := by
  have h1 := (C8_do_error_paths_still_enforce_semi defaultLang trivialCollab false
    ⟨.kw_do, 0⟩ [⟨.semi, 1⟩, ⟨.semi, 2⟩, ⟨.other, 3⟩] [] 0).1 (by decide)
  have h2 := (C8_do_error_paths_still_enforce_semi defaultLang trivialCollab false
    ⟨.kw_do, 0⟩ [⟨.semi, 1⟩, ⟨.semi, 2⟩, ⟨.other, 3⟩] [] 0).2.1 (by
      simp [ParseStatement, ParseStatementOrDeclaration, curKind, consumeToken])
  rw [h1, h2]
  simp [ParseStatement, ParseStatementOrDeclaration, finishSemi, SkipUntil, skipToks,
    diagTok, addDiag, curKind, curLoc, consumeToken]

/-- **C9**: the `OnlyStatement` flag is never consulted (the source carries
only a `TODO` for it), so the dispatcher behaves identically for both values
of the flag on every input: same tokens consumed, same diagnostics. -/
theorem C9_OnlyStatement_has_no_effect (lang : LangOptions) (c : Collab) (s : PState) :
    ParseStatementOrDeclaration lang c true s
      = ParseStatementOrDeclaration lang c false s := by
  simp only [ParseStatementOrDeclaration]

/-- **C10**: a missing semicolon after the first-clause expression of a `for`
emits its two diagnostics and recovers but does not abort the routine — the
second clause is still parsed; the second clause's semicolon check likewise
diagnoses and recovers and always continues into the third clause; the
closing-parenthesis check follows, and when it succeeds the body statement
is parsed. -/
theorem C10_for_missing_semi_continues (lang : LangOptions) (c : Collab) (t : Token)
    (rest : List Token) (ds : List Diag) (ec : Nat) (FL LP : Nat) (u : PState) :
    (curKind (⟨rest, ds, ec⟩ : PState) = .l_paren →
     curKind (consumeToken ⟨rest, ds, ec⟩) ≠ .semi →
     c.isDeclarationSpecifier (consumeToken ⟨rest, ds, ec⟩).toks = false →
     curKind (ParseExpression c (consumeToken ⟨rest, ds, ec⟩)) ≠ .semi →
      ParseForStatement lang c ⟨t :: rest, ds, ec⟩
        = forSecondPart lang c t.loc (curLoc ⟨rest, ds, ec⟩)
            (SkipUntil .semi (addDiag (diagTok (ParseExpression c
              (consumeToken ⟨rest, ds, ec⟩)) .err_expected_semi_for) t.loc .err_matching)))
    ∧ forSecondPart lang c FL LP u
        = forThirdPart lang c FL LP (forClauseSemi c FL u)
    ∧ (curKind (optExpr c .semi u) ≠ .semi →
        forClauseSemi c FL u = SkipUntil .semi (addDiag (diagTok (optExpr c .semi u)
          .err_expected_semi_for) FL .err_matching))
    ∧ (curKind (optExpr c .r_paren u) = .r_paren →
        forThirdPart lang c FL LP u
          = ParseStatement lang c (consumeToken (optExpr c .r_paren u)))
    ∧ (curKind (optExpr c .r_paren u) ≠ .r_paren →
        forThirdPart lang c FL LP u
          = SkipUntil .r_paren (addDiag (diagTok (optExpr c .r_paren u)
              .err_expected_rparen) LP .err_matching)) := by
  refine ⟨?_, forSecondPart_eq lang c FL LP u, ?_, ?_, ?_⟩
  · exact fun hp hs hd hes => PFor_expr_nosemi lang c t rest ds ec hp hs hd hes
  · intro hcl
    rw [forClauseSemi_eq]
    exact forSemiCheck_nosemi FL (optExpr c .semi u) hcl
  · exact fun hr => PF3_rparen lang c FL LP u hr
  · exact fun hr => PF3_norparen lang c FL LP u hr

theorem C10_for_missing_semi_continues_witness :
    ParseForStatement defaultLang trivialCollab
        ⟨[⟨.kw_for, 0⟩, ⟨.l_paren, 1⟩, ⟨.other, 2⟩, ⟨.semi, 3⟩, ⟨.semi, 4⟩,
          ⟨.r_paren, 5⟩, ⟨.semi, 6⟩], [], 0⟩
      = ⟨[], [⟨2, .err_expected_semi_for⟩, ⟨0, .err_matching⟩], 1⟩ := by
  have h := (C10_for_missing_semi_continues defaultLang trivialCollab ⟨.kw_for, 0⟩
    [⟨.l_paren, 1⟩, ⟨.other, 2⟩, ⟨.semi, 3⟩, ⟨.semi, 4⟩, ⟨.r_paren, 5⟩, ⟨.semi, 6⟩]
    [] 0 0 1 ⟨[], [], 0⟩).1 (by decide) (by decide) (by decide) (by decide)
  rw [h]
  simp [forSecondPart, forThirdPart, forClauseSemi, forSemiCheck, optExpr,
    ParseStatement, ParseStatementOrDeclaration, ParseExpression, SkipUntil, skipToks,
    diagTok, addDiag, curKind, curLoc, consumeToken, trivialCollab]

end ClangStmt
